import Mathlib

/-!
Verification development for the tp-rel-disassembler repository.

The development shallowly embeds the JavaScript sources
(src/dolphin/GekkoDisassembler.js and src/relProcessor.js) into Lean.

Modelling conventions, chosen to mirror ECMAScript semantics:

* JavaScript numbers that hold integral values are modelled as Int.
  Bitwise operators coerce through ToInt32/ToUint32 exactly as in
  ECMAScript, via the js* helpers below.
* The sprintf-js format directives used by the sources are reproduced
  by dedicated helpers.  In sprintf-js, the x conversion is
  parseInt(arg, 10).toString(16); x is not in the sign-handling class
  /[diefg]/, so a negative argument keeps its minus sign and the zero
  padding of a width specifier is inserted BEFORE the minus sign.
* Plain objects used as string-keyed maps with numeric keys are
  modelled as association lists kept in ascending numeric key order,
  matching the ECMAScript enumeration order of array-index keys.
* A JavaScript runtime exception (TypeError) is modelled by Except.error.
-/

namespace JsNum

/-- ECMAScript ToUint32 of an integral number. -/
def toUint32 (a : Int) : Nat := (a % 4294967296).toNat

/-- ECMAScript ToInt32 of an integral number. -/
def toInt32 (a : Int) : Int :=
  let u := toUint32 a
  if u < 2147483648 then (u : Int) else (u : Int) - 4294967296

/-- JavaScript bitwise and. -/
def jsAnd (a b : Int) : Int := toInt32 ((toUint32 a &&& toUint32 b : Nat) : Int)

/-- JavaScript bitwise or. -/
def jsOr (a b : Int) : Int := toInt32 ((toUint32 a ||| toUint32 b : Nat) : Int)

/-- JavaScript bitwise xor. -/
def jsXor (a b : Int) : Int := toInt32 ((toUint32 a ^^^ toUint32 b : Nat) : Int)

/-- JavaScript bitwise not. -/
def jsNot (a : Int) : Int := toInt32 ((toUint32 a ^^^ 4294967295 : Nat) : Int)

/-- JavaScript left shift (shift count is taken mod 32). -/
def jsShl (a b : Int) : Int :=
  toInt32 (((toUint32 a <<< (toUint32 b % 32)) % 4294967296 : Nat) : Int)

/-- JavaScript signed right shift: arithmetic shift, i.e. flooring
division of the ToInt32 value by a power of two. -/
def jsShrA (a b : Int) : Int := Int.fdiv (toInt32 a) ((2 : Int) ^ (toUint32 b % 32))

/-- JavaScript unsigned right shift; the result is always nonnegative. -/
def jsShrU (a b : Int) : Nat := toUint32 a >>> (toUint32 b % 32)

/-- Truthiness test of a masked word, for JavaScript conditions of the
form (w and mask). -/
def tst (w : Int) (m : Nat) : Bool := decide ((toUint32 w &&& m) ≠ 0)

end JsNum

namespace JsStr

/-- Lowercase hexadecimal digits of a natural number, as produced by
JavaScript Number.prototype.toString(16). -/
def natHex (n : Nat) : String := (Nat.toDigits 16 n).asString

/-- JavaScript Number.prototype.toString(16) for an integral number:
negative values keep a leading minus sign. -/
def hexBody (n : Int) : String :=
  if n < 0 then "-" ++ natHex n.natAbs else natHex n.toNat

/-- Zero padding, inserted before the whole converted argument (this is
where sprintf-js puts it for the x conversion, even before a minus
sign). -/
def padZero (w : Nat) (s : String) : String :=
  if s.length < w then (List.replicate (w - s.length) '0').asString ++ s else s

/-- sprintf %x. -/
def fmtX (n : Int) : String := hexBody n

/-- sprintf %02x. -/
def fmtX2 (n : Int) : String := padZero 2 (hexBody n)

/-- sprintf %04x. -/
def fmtX4 (n : Int) : String := padZero 4 (hexBody n)

/-- sprintf %08x. -/
def fmtX8 (n : Int) : String := padZero 8 (hexBody n)

/-- JavaScript String() of an integral number (also sprintf %s applied
to a number): decimal notation. -/
def decStr (n : Int) : String := Int.repr n

/-- JavaScript String() of a natural number. -/
def decStrN (n : Nat) : String := Nat.repr n

end JsStr

example : JsStr.fmtX8 (-2147483648) = "-80000000" := by decide
example : JsStr.fmtX8 (-4) = "000000-4" := by decide
example : JsStr.fmtX8 8 = "00000008" := by decide
example : JsNum.jsOr (-1) 4294967295 = -1 := by decide
example : JsNum.jsShrA (-8) 1 = -4 := by decide

/-!
Embedding of src/dolphin/GekkoDisassembler.js.

The source keeps the decode result in module-level mutable variables
(m_opcode, m_operands, m_type, m_flags, m_sreg, m_displacement); here
they are threaded explicitly as a DState record.  m_sreg and
m_displacement are not reset between calls in the source, but they are
write-only (no code path reads them), so each call is modelled as
starting from zero; the rendered text is unaffected.

A JavaScript array access out of range yields undefined; where the
source feeds such a value to a %s conversion, sprintf-js renders the
string undefined.  The helper jsIdx reproduces that.
-/

namespace Gekko

open JsNum JsStr

def PPCINSTR_OTHER : Nat := 0
def PPCINSTR_BRANCH : Nat := 1
def PPCINSTR_LDST : Nat := 2
def PPCINSTR_IMM : Nat := 3

def PPCF_ILLEGAL : Nat := 1
def PPCF_UNSIGNED : Nat := 2
def PPCF_SUPER : Nat := 4
def PPCF_SIXTY_FOUR : Nat := 8

/-- createGetFromMask: (instr and mask) >>> shiftAmt.  The intermediate
Int32 coercion round-trips through ToUint32, so this is a plain masked
shift of the unsigned word. -/
def getFromMask (mask sh : Nat) (w : Int) : Nat := (toUint32 w &&& mask) >>> sh

def PPCGETIDX (w : Int) : Nat := getFromMask 0xfc000000 26 w
def PPCGETD (w : Int) : Nat := getFromMask 0x03e00000 21 w
def PPCGETA (w : Int) : Nat := getFromMask 0x001f0000 16 w
def PPCGETB (w : Int) : Nat := getFromMask 0x0000f800 11 w
def PPCGETC (w : Int) : Nat := getFromMask 0x000007c0 6 w
def PPCGETM (w : Int) : Nat := getFromMask 0x0000003e 1 w
def PPCGETCRD (w : Int) : Nat := getFromMask 0x03800000 23 w
def PPCGETCRA (w : Int) : Nat := getFromMask 0x001c0000 18 w
def PPCGETL (w : Int) : Nat := getFromMask 0x00600000 21 w
def PPCGETIDX2 (w : Int) : Nat := getFromMask 0x000007fe 1 w

def trap_condition : List (Option String) :=
  [none, some "lgt", some "llt", none, some "eq", some "lge", some "lle", none,
   some "gt", none, none, none, some "ge", none, none, none,
   some "lt", none, none, none, some "le", none, none, none,
   some "ne", none, none, none, none, none, none, none]

def cmpname : List String := ["cmpw", "cmpd", "cmplw", "cmpld"]

def ps_cmpname : List String := ["ps_cmpu0", "ps_cmpo0", "ps_cmpu1", "ps_cmpo1"]

def b_ext : List String := ["", "l", "a", "la"]

def b_condition : List String := ["ge", "le", "ne", "ns", "lt", "gt", "eq", "so"]

def b_decr : List (Option String) :=
  [some "nzf", some "zf", none, none, some "nzt", some "zt", none, none,
   some "nz", some "z", none, none, some "nz", some "z", none, none]

def regsel : List String := ["", "r"]

def oesel : List String := ["", "o"]

def rcsel : List String := ["", "."]

def ldstnames : List String :=
  ["lwz", "lwzu", "lbz", "lbzu", "stw", "stwu", "stb", "stbu",
   "lhz", "lhzu", "lha", "lhau", "sth", "sthu", "lmw", "stmw",
   "lfs", "lfsu", "lfd", "lfdu", "stfs", "stfsu", "stfd", "stfdu"]

def regnames : List String :=
  ["r0", "sp", "rtoc", "r3", "r4", "r5", "r6", "r7", "r8", "r9", "r10",
   "r11", "r12", "r13", "r14", "r15", "r16", "r17", "r18", "r19", "r20", "r21",
   "r22", "r23", "r24", "r25", "r26", "r27", "r28", "r29", "r30", "r31"]

/-- JavaScript array indexing followed by a %s conversion: out of range
yields undefined, which sprintf-js renders as the string undefined. -/
def jsIdx (l : List String) (i : Nat) : String := l.getD i "undefined"

/-- JavaScript array indexing yielding a possibly-null entry; an
out-of-range access behaves like a null entry for the != null tests the
source performs. -/
def jsIdxO (l : List (Option String)) (i : Nat) : Option String := l.getD i none

/-- A possibly-null value fed to a %s conversion renders null as the
string null. -/
def jsStrOf : Option String → String
  | some s => s
  | none => "null"

structure DState where
  opcode : String
  operands : String
  ty : Nat
  flags : Nat
  sreg : Nat
  displacement : Int
deriving Repr, DecidableEq

/-- HelperRotateMask from the source.  All intermediate values follow
JavaScript Int32/Uint32 coercions; the result can be a negative Int32. -/
def HelperRotateMask (r mb me : Nat) : Int :=
  let begin0 : Int := ((4294967295 >>> mb : Nat) : Int)
  let end0 : Int := if me < 31 then ((4294967295 >>> (me + 1) : Nat) : Int) else 0
  let mask := jsXor begin0 end0
  let mask := if me < mb then jsNot mask else mask
  jsOr (jsShl mask (32 - (r : Int))) ((jsShrU mask r : Nat) : Int)

/-- ldst_offs from the source. -/
def ldst_offs (val : Int) : String :=
  if val = 0 then "0"
  else if tst val 0x8000 then "-0x" ++ fmtX4 (jsAnd (jsNot val) 0xffff + 1)
  else "0x" ++ fmtX4 val

/-- SEX12 from the source; the sign-extended value is a negative Int32. -/
def SEX12 (x : Int) : Int :=
  if tst x 0x800 then jsOr x 0xfffff000 else x

def sprNumToName : List (Nat × String) :=
  [(1, "XER"), (8, "LR"), (9, "CTR"), (18, "DSIR"), (19, "DAR"), (22, "DEC"),
   (25, "SDR1"), (26, "SRR0"), (27, "SRR1"), (272, "SPRG0"), (273, "SPRG1"),
   (274, "SPRG2"), (275, "SPRG3"), (282, "EAR"), (287, "PVR"),
   (528, "IBAT0U"), (529, "IBAT0L"), (530, "IBAT1U"), (531, "IBAT1L"),
   (532, "IBAT2U"), (533, "IBAT2L"), (534, "IBAT3U"), (535, "IBAT3L"),
   (536, "DBAT0U"), (537, "DBAT0L"), (538, "DBAT1U"), (539, "DBAT1L"),
   (540, "DBAT2U"), (541, "DBAT2L"), (542, "DBAT3U"), (543, "DBAT3L"),
   (912, "GQR0"), (913, "GQR1"), (914, "GQR2"), (915, "GQR3"), (916, "GQR4"),
   (917, "GQR5"), (918, "GQR6"), (919, "GQR7"), (920, "HID2"), (921, "WPAR"),
   (922, "DMA_U"), (923, "DMA_L"), (924, "ECID_U"), (925, "ECID_M"),
   (926, "ECID_L"), (936, "UMMCR0"), (937, "UPMC1"), (938, "UPMC2"),
   (939, "USIA"), (940, "UMMCR1"), (941, "UPMC3"), (942, "UPMC4"),
   (943, "USDA"), (952, "MMCR0"), (953, "PMC1"), (954, "PMC2"), (955, "SIA"),
   (956, "MMCR1"), (957, "PMC3"), (958, "PMC4"), (959, "SDA"), (1008, "HID0"),
   (1009, "HID1"), (1010, "IABR"), (1011, "HID4"), (1013, "DABR"),
   (1017, "L2CR"), (1019, "ICTC"), (1020, "THRM1"), (1021, "THRM2"),
   (1022, "THRM3")]

/-- spr_name from the source: sprNumToName[i] or String(i). -/
def spr_name (i : Nat) : String := (sprNumToName.lookup i).getD (decStrN i)

/-- swapda from the source. -/
def swapda (w : Int) : Int :=
  jsOr (jsOr (jsAnd w 0xfc00ffff) (jsShl (jsAnd w 0x001f0000) 5))
    (jsShrA (jsAnd w 0x03e00000) 5)

/-- swapab from the source. -/
def swapab (w : Int) : Int :=
  jsOr (jsOr (jsAnd w 0xffe007ff) (jsShl (jsAnd w 0x0000f800) 5))
    (jsShrA (jsAnd w 0x001f0000) 5)

/-- ill from the source.  Note that the ILLEGAL flag is set
unconditionally, also for the all-zero word. -/
def ill (inOp : Int) (s : DState) : DState :=
  let s :=
    if inOp = 0 then { s with opcode := "", operands := "---" }
    else { s with opcode := "(ill)", operands := fmtX8 inOp }
  { s with flags := s.flags ||| PPCF_ILLEGAL }

/-- imm from the source.  The first statement of the source overwrites
the hex parameter with true, so the parameter is dead. -/
def imm (inVal : Int) (uimm ty : Nat) (_hex : Bool) (s : DState) : String × DState :=
  let i : Int := jsAnd inVal 0xffff
  let s := { s with ty := PPCINSTR_IMM }
  let (i, s) :=
    if uimm = 0 then (if i > 0x7fff then i - 0x10000 else i, s)
    else (i, { s with flags := s.flags ||| PPCF_UNSIGNED })
  let s := { s with displacement := i }
  let text :=
    match ty with
    | 0 => jsIdx regnames (PPCGETD inVal) ++ ", " ++ jsIdx regnames (PPCGETA inVal)
             ++ ", 0x" ++ fmtX i
    | 1 => jsIdx regnames (PPCGETA inVal) ++ ", " ++ jsIdx regnames (PPCGETD inVal)
             ++ ", 0x" ++ fmtX4 i
    | 2 => jsIdx regnames (PPCGETA inVal) ++ ", " ++ decStr i
    | 3 => jsIdx regnames (PPCGETD inVal) ++ ", 0x" ++ fmtX4 i
    | _ => "imm(): Wrong type"
  (text, s)

/-- ra_rb from the source. -/
def ra_rb (inVal : Int) : String :=
  jsIdx regnames (PPCGETA inVal) ++ ", " ++ jsIdx regnames (PPCGETB inVal)

/-- rd_ra_rb from the source.  Each selected slot appends a trailing
comma-space separator, and the source then erases from the last
separator on; since the built string always ends in the separator when
nonempty, this drops the final two characters. -/
def rd_ra_rb (inVal : Int) (mask : Nat) : String :=
  if mask ≠ 0 then
    let r := ""
    let r := if mask &&& 4 ≠ 0 then r ++ jsIdx regnames (PPCGETD inVal) ++ ", " else r
    let r := if mask &&& 2 ≠ 0 then r ++ jsIdx regnames (PPCGETA inVal) ++ ", " else r
    let r := if mask &&& 1 ≠ 0 then r ++ jsIdx regnames (PPCGETB inVal) ++ ", " else r
    if r = "" then r else r.dropRight 2
  else ""

/-- fd_ra_rb from the source; slots are comma separated and the final
character (a trailing comma) is dropped. -/
def fd_ra_rb (inVal : Int) (mask : Nat) : String :=
  if mask ≠ 0 then
    let r := ""
    let r := if mask &&& 4 ≠ 0 then r ++ "f" ++ decStrN (PPCGETD inVal) ++ "," else r
    let r := if mask &&& 2 ≠ 0 then r ++ jsIdx regnames (PPCGETA inVal) ++ "," else r
    let r := if mask &&& 1 ≠ 0 then r ++ jsIdx regnames (PPCGETB inVal) ++ "," else r
    r.dropRight 1
  else ""

/-- trapi from the source. -/
def trapi (inVal : Int) (dmode : Nat) (s : DState) : DState :=
  let cnd := jsIdxO trap_condition (PPCGETD inVal)
  let s := { s with flags := s.flags ||| dmode }
  let s :=
    match cnd with
    | some c => { s with opcode := "t" ++ (if dmode ≠ 0 then "d" else "w") ++ c }
    | none =>
        { s with opcode := "t" ++ (if dmode ≠ 0 then "d" else "w") ++ "i",
                 operands := decStrN (PPCGETD inVal) ++ ", " }
  let (t, s) := imm inVal 0 2 false s
  { s with operands := s.operands ++ t }

/-- cmpi from the source. -/
def cmpi (inVal : Int) (uimm : Nat) (s : DState) : DState :=
  let i := PPCGETL inVal
  if i < 2 then
    let s := if i ≠ 0 then { s with flags := s.flags ||| PPCF_SIXTY_FOUR } else s
    let s := { s with opcode := jsIdx cmpname (uimm * 2 + i) ++ "i" }
    let i2 := PPCGETCRD inVal
    let s :=
      if i2 ≠ 0 then { s with operands := s.operands ++ "cr" ++ decStrN i2 ++ ", " }
      else s
    let (t, s) := imm inVal uimm 2 false s
    { s with operands := s.operands ++ t }
  else ill inVal s

/-- addi from the source. -/
def addi (inVal : Int) (ext : String) (s : DState) : DState :=
  if tst inVal 0x08000000 ∧ PPCGETA inVal = 0 then
    let s := { s with opcode := "l" ++ ext }
    if ext = "i" then
      let (t, s) := imm inVal 0 3 false s
      { s with operands := t }
    else
      let (t, s) := imm inVal 1 3 true s
      { s with operands := t }
  else
    let s := { s with opcode := (if tst inVal 0x8000 then "sub" else "add") ++ ext }
    let inVal := if tst inVal 0x8000 then jsXor inVal 0xffff + 1 else inVal
    let (t, s) := imm inVal 1 0 false s
    { s with operands := t }

/-- branch from the source (the source also returns the operand length,
which every call site discards). -/
def branch (inVal : Int) (bname : String) (aform : Nat) (bdisp : Int) (s : DState) :
    DState :=
  let bo := PPCGETD inVal
  let bi := PPCGETA inVal
  let y0 := bo &&& 1
  let ext := jsIdx b_ext (aform * 2 + getFromMask 1 0 inVal)
  let y0 := if bdisp < 0 then y0 ^^^ 1 else y0
  let y := if y0 ≠ 0 then "+" else "-"
  if bo &&& 4 ≠ 0 then
    if bo &&& 16 ≠ 0 then
      if PPCGETIDX inVal ≠ 16 then
        { s with opcode := "b" ++ bname ++ ext }
      else
        { s with opcode := "bc" ++ ext,
                 operands := decStrN bo ++ ", " ++ decStrN bi }
    else
      let s :=
        { s with opcode := "b" ++ jsIdx b_condition (((bo &&& 8) >>> 1) + (bi &&& 3))
                             ++ bname ++ ext ++ y }
      if bi ≥ 4 then { s with operands := "cr" ++ decStrN (bi >>> 2) } else s
  else
    let s := { s with opcode := "bd" ++ jsStrOf (jsIdxO b_decr (bo >>> 1))
                                  ++ bname ++ ext ++ y }
    if bo &&& 16 = 0 then { s with operands := decStrN bi } else s

/-- bc from the source. -/
def bc (inVal iaddr : Int) (s : DState) : DState :=
  let d : Int := jsAnd inVal 0xfffc
  let d := if tst d 0x8000 then jsOr d 0xffff0000 else d
  let s := branch inVal "" (if tst inVal 2 then 1 else 0) d s
  let s :=
    if tst inVal 2 then { s with operands := s.operands ++ " ->0x" ++ fmtX8 d }
    else { s with operands := s.operands ++ " ->0x" ++ fmtX8 (iaddr + d) }
  { s with ty := PPCINSTR_BRANCH, displacement := d }

/-- bli from the source. -/
def bli (inVal iaddr : Int) (s : DState) : DState :=
  let d : Int := jsAnd inVal 0x3fffffc
  let d := if tst d 0x02000000 then jsOr d 0xfc000000 else d
  let s := { s with opcode := "b" ++ jsIdx b_ext (getFromMask 3 0 inVal) }
  let s :=
    if tst inVal 2 then { s with operands := "->0x" ++ fmtX8 d }
    else { s with operands := "->0x" ++ fmtX8 (iaddr + d) }
  { s with ty := PPCINSTR_BRANCH, displacement := d }

/-- mcrf from the source. -/
def mcrf (inVal : Int) (suffix : String) (s : DState) : DState :=
  if jsAnd inVal 0x0063f801 = 0 then
    { s with opcode := "mcrf" ++ suffix,
             operands := "cr" ++ decStrN (PPCGETCRD inVal) ++ ", cr"
                           ++ decStrN (PPCGETCRA inVal) }
  else ill inVal s

/-- crop from the source.  The JavaScript condition
cra == crb and not n2.empty() calls n2.empty(); neither a string nor a
plain object has an empty method, so whenever the Rc bit is clear and
the two source condition fields are equal the call raises a TypeError.
The n2 argument (a string for ops with an alias, an empty object
otherwise, modelled as Option String) is consequently never rendered. -/
def crop (inVal : Int) (n1 : String) (_n2 : Option String) (s : DState) :
    Except String DState :=
  let crd := PPCGETD inVal
  let cra := PPCGETA inVal
  let crb := PPCGETB inVal
  if jsAnd inVal 1 = 0 then
    if cra = crb then .error "TypeError: n2.empty is not a function"
    else
      .ok { s with opcode := "cr" ++ n1,
                   operands := decStrN crd ++ ", " ++ decStrN cra ++ ", "
                                 ++ decStrN crb }
  else .ok (ill inVal s)

/-- nooper from the source. -/
def nooper (inVal : Int) (name : String) (dmode : Nat) (s : DState) : DState :=
  if tst inVal (0x03e00000 ||| 0x001f0000 ||| 0x0000f800 ||| 1) then ill inVal s
  else { s with flags := s.flags ||| dmode, opcode := name }

/-- rlw from the source. -/
def rlw (inVal : Int) (name : String) (i : Nat) (s : DState) : DState :=
  let sIdx := PPCGETD inVal
  let a := PPCGETA inVal
  let bsh := PPCGETB inVal
  let mb := PPCGETC inVal
  let me := PPCGETM inVal
  { s with opcode := "rlw" ++ name ++ (if tst inVal 1 then "." else ""),
           operands := jsIdx regnames a ++ ", " ++ jsIdx regnames sIdx ++ ", "
                         ++ jsIdx regsel i ++ decStrN bsh ++ ", " ++ decStrN mb
                         ++ ", " ++ decStrN me ++ " ("
                         ++ fmtX8 (HelperRotateMask bsh mb me) ++ ")" }

/-- ori from the source. -/
def ori (inVal : Int) (name : String) (s : DState) : DState :=
  let s := { s with opcode := name }
  let (t, s) := imm inVal 1 1 true s
  { s with operands := t }

/-- rld from the source. -/
def rld (inVal : Int) (name : String) (i : Nat) (s : DState) : DState :=
  let sIdx := PPCGETD inVal
  let a := PPCGETA inVal
  let bsh := if i ≠ 0 then PPCGETB inVal
             else toUint32 (jsShl (jsAnd inVal 2) 4) + PPCGETB inVal
  let m := toUint32 (jsAnd inVal 0x7e0) >>> 5
  { s with flags := s.flags ||| PPCF_SIXTY_FOUR,
           opcode := "rld" ++ name ++ (if tst inVal 1 then "." else ""),
           operands := jsIdx regnames a ++ ", " ++ jsIdx regnames sIdx ++ ", "
                         ++ jsIdx regsel i ++ decStrN bsh ++ ", " ++ decStrN m }

/-- cmp from the source. -/
def cmp (inVal : Int) (s : DState) : DState :=
  let i := PPCGETL inVal
  if i < 2 then
    let s := if i ≠ 0 then { s with flags := s.flags ||| PPCF_SIXTY_FOUR } else s
    let s := { s with opcode := jsIdx cmpname ((if tst inVal 0x000007fe then 2 else 0) + i) }
    let i2 := PPCGETCRD inVal
    let s :=
      if i2 ≠ 0 then { s with operands := s.operands ++ "cr" ++ decStrN i2 ++ "," }
      else s
    { s with operands := s.operands ++ ra_rb inVal }
  else ill inVal s

/-- trap from the source. -/
def trap (inVal : Int) (dmode : Nat) (s : DState) : DState :=
  let cond := PPCGETD inVal
  match jsIdxO trap_condition cond with
  | some cnd =>
      { s with flags := s.flags ||| dmode,
               opcode := "t" ++ (if dmode ≠ 0 then "d" else "w") ++ cnd,
               operands := ra_rb inVal }
  | none =>
      if cond = 31 then
        if dmode ≠ 0 then
          { s with flags := s.flags ||| dmode, opcode := "td", operands := "31,0,0" }
        else { s with opcode := "trap" }
      else ill inVal s

/-- dab from the source.  The oesel index expression
(chkoe and inVal and PPCOE) or 0 evaluates to 0 or to PPCOE = 1024;
oesel[1024] is undefined and renders as the string undefined. -/
def dab (inVal : Int) (name : String) (mask smode chkoe : Nat) (chkrc : Int)
    (dmode : Nat) (s : DState) : DState :=
  if chkrc ≥ 0 ∧ jsAnd inVal 1 ≠ chkrc then ill inVal s
  else
    let s := { s with flags := s.flags ||| dmode }
    let inVal := if smode ≠ 0 then swapda inVal else inVal
    let oeIdx := if chkoe ≠ 0 ∧ tst inVal 0x400 then 1024 else 0
    let rcIdx := if chkrc < 0 ∧ tst inVal 1 then 1 else 0
    { s with opcode := name ++ jsIdx oesel oeIdx ++ jsIdx rcsel rcIdx,
             operands := rd_ra_rb inVal mask }

/-- rrn from the source. -/
def rrn (inVal : Int) (name : String) (smode chkoe : Nat) (chkrc : Int)
    (dmode : Nat) (s : DState) : DState :=
  if chkrc ≥ 0 ∧ jsAnd inVal 1 ≠ chkrc then ill inVal s
  else
    let s := { s with flags := s.flags ||| dmode }
    let inVal := if smode ≠ 0 then swapda inVal else inVal
    let oeIdx := if chkoe ≠ 0 ∧ tst inVal 0x400 then 1024 else 0
    let rcIdx := if chkrc < 0 ∧ tst inVal 1 then 1 else 0
    { s with opcode := name ++ jsIdx oesel oeIdx ++ jsIdx rcsel rcIdx,
             operands := rd_ra_rb inVal 6 ++ "," ++ decStrN (PPCGETB inVal) }

/-- mtcr from the source. -/
def mtcr (inVal : Int) (s : DState) : DState :=
  let sIdx := PPCGETD inVal
  let crm := toUint32 (jsAnd inVal 0x000ff000) >>> 12
  if tst inVal 0x00100801 then ill inVal s
  else
    let s := { s with opcode := "mtcr" ++ (if crm = 0xff then "" else "f") }
    let s :=
      if crm ≠ 0xff then { s with operands := s.operands ++ "0x" ++ fmtX2 crm ++ "," }
      else s
    { s with operands := s.operands ++ jsIdx regnames sIdx }

/-- msr from the source. -/
def msr (inVal : Int) (smode : Nat) (s : DState) : DState :=
  let sIdx := PPCGETD inVal
  let sr := toUint32 (jsAnd inVal 0x000f0000) >>> 16
  if tst inVal 0x0010f801 then ill inVal s
  else
    let s := { s with flags := s.flags ||| PPCF_SUPER,
                      opcode := "m" ++ (if smode ≠ 0 then "t" else "f") ++ "sr" }
    if smode ≠ 0 then
      { s with operands := decStrN sr ++ ", " ++ jsIdx regnames sIdx }
    else
      { s with operands := jsIdx regnames sIdx ++ ", " ++ decStrN sr }

/-- mspr from the source. -/
def mspr (inVal : Int) (smode : Nat) (s : DState) : DState :=
  let d := PPCGETD inVal
  let spr := (PPCGETB inVal <<< 5) + PPCGETA inVal
  if tst inVal 1 then ill inVal s
  else
    let s :=
      if spr ≠ 1 ∧ spr ≠ 8 ∧ spr ≠ 9 then { s with flags := s.flags ||| PPCF_SUPER }
      else s
    let x := if spr = 1 then "xer" else if spr = 8 then "lr"
             else if spr = 9 then "ctr" else "spr"
    let fmt : Bool := spr ≠ 1 ∧ spr ≠ 8 ∧ spr ≠ 9
    let s := { s with opcode := "m" ++ (if smode ≠ 0 then "t" else "f") ++ x }
    if fmt then
      if smode ≠ 0 then { s with operands := spr_name spr ++ ", " ++ jsIdx regnames d }
      else { s with operands := jsIdx regnames d ++ ", " ++ spr_name spr }
    else { s with operands := jsIdx regnames d }

/-- mtb from the source. -/
def mtb (inVal : Int) (s : DState) : DState :=
  let d := PPCGETD inVal
  let tbr := (PPCGETB inVal <<< 5) + PPCGETA inVal
  if tst inVal 1 then ill inVal s
  else
    let s := { s with operands := s.operands ++ jsIdx regnames d }
    let (x, s) :=
      if tbr = 268 then ("l", s)
      else if tbr = 269 then ("u", s)
      else ("", { s with flags := s.flags ||| PPCF_SUPER,
                         operands := s.operands ++ "," ++ decStrN tbr })
    { s with opcode := "mftb" ++ x }

/-- sradi from the source. -/
def sradi (inVal : Int) (s : DState) : DState :=
  let sIdx := PPCGETD inVal
  let a := PPCGETA inVal
  let bsh := toUint32 (jsShl (jsAnd inVal 2) 4) + PPCGETB inVal
  { s with flags := s.flags ||| PPCF_SIXTY_FOUR,
           opcode := "sradi" ++ (if tst inVal 1 then "." else ""),
           operands := jsIdx regnames a ++ ", " ++ jsIdx regnames sIdx ++ ", "
                         ++ decStrN bsh }

/-- ldst from the source. -/
def ldst (inVal : Int) (name reg : String) (dmode : Nat) (s : DState) : DState :=
  let sIdx := PPCGETD inVal
  let a := PPCGETA inVal
  let d : Int := jsAnd inVal 0xffff
  let s := { s with ty := PPCINSTR_LDST, flags := s.flags ||| dmode, sreg := a,
                    displacement := d, opcode := name }
  if reg = "r" then
    { s with operands := jsIdx regnames sIdx ++ ", " ++ ldst_offs d ++ " ("
                           ++ jsIdx regnames a ++ ")" }
  else
    { s with operands := reg ++ decStrN sIdx ++ ", " ++ ldst_offs d ++ " ("
                           ++ jsIdx regnames a ++ ")" }

/-- fdabc from the source. -/
def fdabc (inVal : Int) (name : String) (mask dmode : Nat) (s : DState) : DState :=
  let s := { s with flags := s.flags ||| dmode }
  let s := { s with opcode := "f" ++ name ++ jsIdx rcsel (getFromMask 1 0 inVal) }
  let s := { s with operands := s.operands ++ "f" ++ decStrN (PPCGETD inVal) ++ "," }
  let (s, err) :=
    if mask &&& 4 ≠ 0 then
      ({ s with operands := s.operands ++ "f" ++ decStrN (PPCGETA inVal) ++ "," },
       (0 : Nat))
    else if mask &&& 8 = 0 then (s, PPCGETA inVal) else (s, 0)
  let (s, err) :=
    if mask &&& 2 ≠ 0 then
      ({ s with operands := s.operands ++ "f" ++ decStrN (PPCGETC inVal) ++ "," }, err)
    else if PPCGETC inVal ≠ 0 ∧ mask &&& 8 = 0 then (s, err ||| PPCGETC inVal)
    else (s, err)
  let (s, err) :=
    if mask &&& 1 ≠ 0 then
      ({ s with operands := s.operands ++ "f" ++ decStrN (PPCGETB inVal) ++ "," }, err)
    else if mask &&& 8 = 0 then (s, err ||| PPCGETB inVal)
    else (s, err)
  let s := { s with operands := s.operands.dropRight 1 }
  if err ≠ 0 then ill inVal s else s

/-- fmr from the source. -/
def fmr (inVal : Int) (s : DState) : DState :=
  { s with opcode := "fmr" ++ jsIdx rcsel (getFromMask 1 0 inVal),
           operands := "f" ++ decStrN (PPCGETD inVal) ++ ", f"
                         ++ decStrN (PPCGETB inVal) }

/-- fdab from the source. -/
def fdab (inVal : Int) (name : String) (mask : Nat) (s : DState) : DState :=
  { s with opcode := name, operands := fd_ra_rb inVal mask }

/-- fcmp from the source. -/
def fcmp (inVal : Int) (c : String) (s : DState) : DState :=
  if tst inVal 0x00600001 then ill inVal s
  else
    { s with opcode := "fcmp" ++ c,
             operands := "cr" ++ decStrN (PPCGETCRD inVal) ++ ",f"
                           ++ decStrN (PPCGETA inVal) ++ ",f"
                           ++ decStrN (PPCGETB inVal) }

/-- mtfsb from the source. -/
def mtfsb (inVal : Int) (n : Nat) (s : DState) : DState :=
  if tst inVal (0x001f0000 ||| 0x0000f800) then ill inVal s
  else
    { s with opcode := "mtfsb" ++ decStrN n ++ jsIdx rcsel (getFromMask 1 0 inVal),
             operands := decStrN (PPCGETD inVal) }

/-- pairedInst getters from the source: (input >>> shiftAmt) and mask.
The source stores the instruction in a module-level variable consulted
by zero-argument getters; here the instruction is passed explicitly. -/
def pGet (sh mask : Nat) (w : Int) : Nat := (toUint32 w >>> sh) &&& mask

def pRA (w : Int) : Nat := pGet 16 0x1f w
def pRB (w : Int) : Nat := pGet 11 0x1f w
def pRS (w : Int) : Nat := pGet 21 0x1f w
def pFA (w : Int) : Nat := pGet 16 0x1f w
def pFB (w : Int) : Nat := pGet 11 0x1f w
def pFC (w : Int) : Nat := pGet 6 0x1f w
def pFD (w : Int) : Nat := pGet 21 0x1f w
def pFS (w : Int) : Nat := pGet 21 0x1f w
def pI (w : Int) : Nat := pGet 12 0x7 w
def pW (w : Int) : Nat := pGet 15 0x1 w
def pIX (w : Int) : Nat := pGet 7 0x7 w
def pWX (w : Int) : Nat := pGet 10 0x1 w

/-- ps from the source (paired-single group). -/
def ps (inst : Int) (s : DState) : DState :=
  match toUint32 (jsAnd (jsShrA inst 1) 0x1f) with
  | 6 =>
      { s with opcode := if tst inst 0x40 then "psq_lux" else "psq_lx",
               operands := "p" ++ decStrN (pFD inst) ++ ", (r" ++ decStrN (pRA inst)
                             ++ " + r" ++ decStrN (pRB inst) ++ "), "
                             ++ decStrN (pWX inst) ++ ", qr" ++ decStrN (pIX inst) }
  | 7 =>
      { s with opcode := if tst inst 0x40 then "psq_stux" else "psq_stx",
               operands := "p" ++ decStrN (pFS inst) ++ ", r" ++ decStrN (pRA inst)
                             ++ ", r" ++ decStrN (pRB inst) ++ ", "
                             ++ decStrN (pWX inst) ++ ", qr" ++ decStrN (pIX inst) }
  | 18 =>
      { s with opcode := "ps_div",
               operands := "p" ++ decStrN (pFD inst) ++ ", p" ++ decStrN (pFA inst)
                             ++ "/p" ++ decStrN (pFB inst) }
  | 20 =>
      { s with opcode := "ps_sub",
               operands := "p" ++ decStrN (pFD inst) ++ ", p" ++ decStrN (pFA inst)
                             ++ "-p" ++ decStrN (pFB inst) }
  | 21 =>
      { s with opcode := "ps_add",
               operands := "p" ++ decStrN (pFD inst) ++ ", p" ++ decStrN (pFA inst)
                             ++ "+p" ++ decStrN (pFB inst) }
  | 23 =>
      { s with opcode := "ps_sel",
               operands := "p" ++ decStrN (pFD inst) ++ ">=0?p" ++ decStrN (pFA inst)
                             ++ ":p" ++ decStrN (pFC inst) }
  | 24 =>
      { s with opcode := "ps_res",
               operands := "p" ++ decStrN (pFD inst) ++ ", (1/p" ++ decStrN (pFB inst)
                             ++ ")" }
  | 25 =>
      { s with opcode := "ps_mul",
               operands := "p" ++ decStrN (pFD inst) ++ ", p" ++ decStrN (pFA inst)
                             ++ "*p" ++ decStrN (pFC inst) }
  | 26 =>
      { s with opcode := "ps_rsqrte",
               operands := "p" ++ decStrN (pFD inst) ++ ", p" ++ decStrN (pFB inst) }
  | 28 =>
      { s with opcode := "ps_msub",
               operands := "p" ++ decStrN (pFD inst) ++ ", p" ++ decStrN (pFA inst)
                             ++ "*p" ++ decStrN (pFC inst) ++ "-p"
                             ++ decStrN (pFB inst) }
  | 29 =>
      { s with opcode := "ps_madd",
               operands := "p" ++ decStrN (pFD inst) ++ ", p" ++ decStrN (pFA inst)
                             ++ "*p" ++ decStrN (pFC inst) ++ "+p"
                             ++ decStrN (pFB inst) }
  | 30 =>
      { s with opcode := "ps_nmsub",
               operands := "p" ++ decStrN (pFD inst) ++ ", -(p" ++ decStrN (pFA inst)
                             ++ "*p" ++ decStrN (pFC inst) ++ "-p"
                             ++ decStrN (pFB inst) ++ ")" }
  | 31 =>
      { s with opcode := "ps_nmadd",
               operands := "p" ++ decStrN (pFD inst) ++ ", -(p" ++ decStrN (pFA inst)
                             ++ "*p" ++ decStrN (pFC inst) ++ "+p"
                             ++ decStrN (pFB inst) ++ ")" }
  | 10 =>
      { s with opcode := "ps_sum0",
               operands := "p" ++ decStrN (pFD inst) ++ ", 0=p" ++ decStrN (pFA inst)
                             ++ "+p" ++ decStrN (pFB inst) ++ ", 1=p"
                             ++ decStrN (pFC inst) }
  | 11 =>
      { s with opcode := "ps_sum1",
               operands := "p" ++ decStrN (pFD inst) ++ ", 0=p" ++ decStrN (pFC inst)
                             ++ ", 1=p" ++ decStrN (pFA inst) ++ "+p"
                             ++ decStrN (pFB inst) }
  | 12 =>
      { s with opcode := "ps_muls0",
               operands := "p" ++ decStrN (pFD inst) ++ ", p" ++ decStrN (pFA inst)
                             ++ "*p" ++ decStrN (pFC inst) ++ "[0]" }
  | 13 =>
      { s with opcode := "ps_muls1",
               operands := "p" ++ decStrN (pFD inst) ++ ", p" ++ decStrN (pFA inst)
                             ++ "*p" ++ decStrN (pFC inst) ++ "[1]" }
  | 14 =>
      { s with opcode := "ps_madds0",
               operands := "p" ++ decStrN (pFD inst) ++ ", p" ++ decStrN (pFA inst)
                             ++ "*p" ++ decStrN (pFC inst) ++ "[0]+p"
                             ++ decStrN (pFB inst) }
  | 15 =>
      { s with opcode := "ps_madds1",
               operands := "p" ++ decStrN (pFD inst) ++ ", p" ++ decStrN (pFA inst)
                             ++ "*p" ++ decStrN (pFC inst) ++ "[1]+p"
                             ++ decStrN (pFB inst) }
  | _ =>
    match toUint32 (jsAnd (jsShrA inst 1) 0x3ff) with
    | 40 =>
        { s with opcode := "ps_neg",
                 operands := "p" ++ decStrN (pFD inst) ++ ", -p" ++ decStrN (pFB inst) }
    | 72 =>
        { s with opcode := "ps_mr",
                 operands := "p" ++ decStrN (pFD inst) ++ ", p" ++ decStrN (pFB inst) }
    | 136 =>
        { s with opcode := "ps_nabs",
                 operands := "p" ++ decStrN (pFD inst) ++ ", -|p" ++ decStrN (pFB inst)
                               ++ "|" }
    | 264 =>
        { s with opcode := "ps_abs",
                 operands := "p" ++ decStrN (pFD inst) ++ ", |p" ++ decStrN (pFB inst)
                               ++ "|" }
    | 0 | 32 | 64 | 96 =>
        let s := { s with opcode := jsIdx ps_cmpname (toUint32 (jsAnd (jsShrA inst 6) 0x3)) }
        let i := PPCGETCRD inst
        let s :=
          if i ≠ 0 then { s with operands := s.operands ++ "cr" ++ decStrN i ++ ", " }
          else s
        { s with operands := s.operands ++ "p" ++ decStrN (pFA inst) ++ ", p"
                               ++ decStrN (pFB inst) }
    | 528 =>
        { s with opcode := "ps_merge00",
                 operands := "p" ++ decStrN (pFD inst) ++ ", p" ++ decStrN (pFA inst)
                               ++ "[0],p" ++ decStrN (pFB inst) ++ "[0]" }
    | 560 =>
        { s with opcode := "ps_merge01",
                 operands := "p" ++ decStrN (pFD inst) ++ ", p" ++ decStrN (pFA inst)
                               ++ "[0],p" ++ decStrN (pFB inst) ++ "[1]" }
    | 592 =>
        { s with opcode := "ps_merge10",
                 operands := "p" ++ decStrN (pFD inst) ++ ", p" ++ decStrN (pFA inst)
                               ++ "[1],p" ++ decStrN (pFB inst) ++ "[0]" }
    | 624 =>
        { s with opcode := "ps_merge11",
                 operands := "p" ++ decStrN (pFD inst) ++ ", p" ++ decStrN (pFA inst)
                               ++ "[1],p" ++ decStrN (pFB inst) ++ "[1]" }
    | 1014 =>
        if tst inst 0x03e00000 then ill inst s
        else dab inst "dcbz_l" 3 0 0 0 0 s
    | _ =>
        { s with opcode := "ps_" ++ decStrN (toUint32 (jsAnd (jsShrA inst 1) 0x1f)),
                 operands := "---" }

/-- ps_mem from the source. -/
def ps_mem (inst : Int) (s : DState) : DState :=
  match PPCGETIDX inst with
  | 56 =>
      { s with opcode := "psq_l",
               operands := "p" ++ decStrN (pRS inst) ++ ", "
                             ++ decStr (SEX12 (jsAnd inst 0xfff)) ++ "(r"
                             ++ decStrN (pRA inst) ++ "), " ++ decStrN (pW inst)
                             ++ ", qr" ++ decStrN (pI inst) }
  | 57 =>
      { s with opcode := "psq_lu",
               operands := "p" ++ decStrN (pRS inst) ++ ", "
                             ++ decStr (SEX12 (jsAnd inst 0xfff)) ++ "(r"
                             ++ decStrN (pRA inst) ++ "), " ++ decStrN (pW inst)
                             ++ ", qr" ++ decStrN (pI inst) }
  | 60 =>
      { s with opcode := "psq_st",
               operands := "p" ++ decStrN (pRS inst) ++ ", "
                             ++ decStr (SEX12 (jsAnd inst 0xfff)) ++ "(r"
                             ++ decStrN (pRA inst) ++ "), " ++ decStrN (pW inst)
                             ++ ", qr" ++ decStrN (pI inst) }
  | 61 =>
      { s with opcode := "psq_stu",
               operands := "p" ++ decStrN (pRS inst) ++ ", "
                             ++ decStr (SEX12 (jsAnd inst 0xfff)) ++ "(r"
                             ++ decStrN (pRA inst) ++ "), " ++ decStrN (pW inst)
                             ++ ", qr" ++ decStrN (pI inst) }
  | _ => s

/-- Byte swap used by doDisassembly for little-endian input.  Note that
the source masks with 0xff000000 and uses a signed shift, following the
JavaScript Int32 coercions. -/
def byteSwap (inVal : Int) : Int :=
  jsOr (jsOr (jsShl (jsAnd inVal 0xff) 24) (jsShl (jsAnd inVal 0xff00) 8))
    (jsOr (jsShrA (jsAnd inVal 0xff0000) 8) (jsShrA (jsAnd inVal 0xff000000) 24))

/-- doDisassembly from the source: dispatch on the 6-bit primary opcode,
then on secondary fields.  A TypeError escaping from crop is modelled
as Except.error.  All call sites in the repository use big-endian
words. -/
def doDisassembly (m_instr m_iaddr : Int) (bigEndian : Bool := true) :
    Except String DState :=
  let inVal := if bigEndian then m_instr else byteSwap m_instr
  let s : DState :=
    { opcode := "", operands := "", ty := PPCINSTR_OTHER, flags := 0,
      sreg := 0, displacement := 0 }
  match PPCGETIDX inVal with
  | 2 => .ok (trapi inVal PPCF_SIXTY_FOUR s)
  | 3 => .ok (trapi inVal 0 s)
  | 4 => .ok (ps inVal s)
  | 56 | 57 | 60 | 61 => .ok (ps_mem inVal s)
  | 7 =>
      let s := { s with opcode := "mulli" }
      let (t, s) := imm inVal 0 0 false s
      .ok { s with operands := t }
  | 8 =>
      let s := { s with opcode := "subfic" }
      let (t, s) := imm inVal 0 0 false s
      .ok { s with operands := t }
  | 10 => .ok (cmpi inVal 1 s)
  | 11 => .ok (cmpi inVal 0 s)
  | 12 => .ok (addi inVal "ic" s)
  | 13 => .ok (addi inVal "ic." s)
  | 14 => .ok (addi inVal "i" s)
  | 15 => .ok (addi inVal "is" s)
  | 16 => .ok (bc inVal m_iaddr s)
  | 17 =>
      if jsAnd inVal 0x03ffffff = 2 then .ok { s with opcode := "sc" }
      else .ok (ill inVal s)
  | 18 => .ok (bli inVal m_iaddr s)
  | 19 =>
      match PPCGETIDX2 inVal with
      | 0 => .ok (mcrf inVal "" s)
      | 16 => .ok (branch inVal "lr" 0 0 s)
      | 33 => crop inVal "nor" (some "not") s
      | 50 => .ok (nooper inVal "rfi" PPCF_SUPER s)
      | 129 => crop inVal "andc" none s
      | 150 => .ok (nooper inVal "isync" 0 s)
      | 193 => crop inVal "xor" (some "clr") s
      | 225 => crop inVal "nand" none s
      | 257 => crop inVal "and" none s
      | 289 => crop inVal "eqv" (some "set") s
      | 417 => crop inVal "orc" none s
      | 449 => crop inVal "or" (some "move") s
      | 528 => .ok (branch inVal "ctr" 0 0 s)
      | _ => .ok (ill inVal s)
  | 20 => .ok (rlw inVal "imi" 0 s)
  | 21 => .ok (rlw inVal "inm" 0 s)
  | 23 => .ok (rlw inVal "nm" 1 s)
  | 24 =>
      if tst inVal 0x03ffffff then .ok (ori inVal "ori" s)
      else .ok { s with opcode := "nop" }
  | 25 => .ok (ori inVal "oris" s)
  | 26 => .ok (ori inVal "xori" s)
  | 27 => .ok (ori inVal "xoris" s)
  | 28 => .ok (ori inVal "andi." s)
  | 29 => .ok (ori inVal "andis." s)
  | 30 =>
      match toUint32 (jsAnd (jsShrA inVal 2) 0x7) with
      | 0 => .ok (rld inVal "icl" 0 s)
      | 1 => .ok (rld inVal "icr" 0 s)
      | 2 => .ok (rld inVal "ic" 0 s)
      | 3 => .ok (rld inVal "imi" 0 s)
      | 4 => .ok (rld inVal (if tst inVal 2 then "cl" else "cr") 1 s)
      | _ => .ok (ill inVal s)
  | 31 =>
      match PPCGETIDX2 inVal with
      | 0 | 32 => if tst inVal 1 then .ok (ill inVal s) else .ok (cmp inVal s)
      | 4 => if tst inVal 1 then .ok (ill inVal s) else .ok (trap inVal 0 s)
      | 8 | 520 => .ok (dab (swapab inVal) "subc" 7 0 1 (-1) 0 s)
      | 9 => .ok (dab inVal "mulhdu" 7 0 0 (-1) PPCF_SIXTY_FOUR s)
      | 10 | 522 => .ok (dab inVal "addc" 7 0 1 (-1) 0 s)
      | 11 => .ok (dab inVal "mulhwu" 7 0 0 (-1) 0 s)
      | 19 =>
          if tst inVal (0x001f0000 ||| 0x0000f800) then .ok (ill inVal s)
          else .ok (dab inVal "mfcr" 4 0 0 0 0 s)
      | 20 => .ok (dab inVal "lwarx" 7 0 0 0 0 s)
      | 21 => .ok (dab inVal "ldx" 7 0 0 0 PPCF_SIXTY_FOUR s)
      | 23 => .ok (dab inVal "lwzx" 7 0 0 0 0 s)
      | 24 => .ok (dab inVal "slw" 7 1 0 (-1) 0 s)
      | 26 =>
          if tst inVal 0x0000f800 then .ok (ill inVal s)
          else .ok (dab inVal "cntlzw" 6 1 0 (-1) 0 s)
      | 27 => .ok (dab inVal "sld" 7 1 0 (-1) PPCF_SIXTY_FOUR s)
      | 28 => .ok (dab inVal "and" 7 1 0 (-1) 0 s)
      | 40 | 552 => .ok (dab (swapab inVal) "sub" 7 0 1 (-1) 0 s)
      | 53 => .ok (dab inVal "ldux" 7 0 0 0 PPCF_SIXTY_FOUR s)
      | 54 =>
          if tst inVal 0x03e00000 then .ok (ill inVal s)
          else .ok (dab inVal "dcbst" 3 0 0 0 0 s)
      | 55 => .ok (dab inVal "lwzux" 7 0 0 0 0 s)
      | 58 =>
          if tst inVal 0x0000f800 then .ok (ill inVal s)
          else .ok (dab inVal "cntlzd" 6 1 0 (-1) PPCF_SIXTY_FOUR s)
      | 60 => .ok (dab inVal "andc" 7 1 0 (-1) 0 s)
      | 68 => .ok (trap inVal PPCF_SIXTY_FOUR s)
      | 73 => .ok (dab inVal "mulhd" 7 0 0 (-1) PPCF_SIXTY_FOUR s)
      | 75 => .ok (dab inVal "mulhw" 7 0 0 (-1) 0 s)
      | 83 =>
          if tst inVal (0x001f0000 ||| 0x0000f800) then .ok (ill inVal s)
          else .ok (dab inVal "mfmsr" 4 0 0 0 PPCF_SUPER s)
      | 84 => .ok (dab inVal "ldarx" 7 0 0 0 PPCF_SIXTY_FOUR s)
      | 86 =>
          if tst inVal 0x03e00000 then .ok (ill inVal s)
          else .ok (dab inVal "dcbf" 3 0 0 0 0 s)
      | 87 => .ok (dab inVal "lbzx" 7 0 0 0 0 s)
      | 104 | 616 =>
          if tst inVal 0x0000f800 then .ok (ill inVal s)
          else .ok (dab inVal "neg" 6 0 1 (-1) 0 s)
      | 119 => .ok (dab inVal "lbzux" 7 0 0 0 0 s)
      | 124 =>
          if PPCGETD inVal = PPCGETB inVal then .ok (dab inVal "not" 6 1 0 (-1) 0 s)
          else .ok (dab inVal "nor" 7 1 0 (-1) 0 s)
      | 136 | 648 => .ok (dab inVal "subfe" 7 0 1 (-1) 0 s)
      | 138 | 650 => .ok (dab inVal "adde" 7 0 1 (-1) 0 s)
      | 144 => .ok (mtcr inVal s)
      | 146 =>
          if tst inVal (0x001f0000 ||| 0x0000f800) then .ok (ill inVal s)
          else .ok (dab inVal "mtmsr" 4 0 0 0 PPCF_SUPER s)
      | 149 => .ok (dab inVal "stdx" 7 0 0 0 PPCF_SIXTY_FOUR s)
      | 150 => .ok (dab inVal "stwcx." 7 0 0 1 0 s)
      | 151 => .ok (dab inVal "stwx" 7 0 0 0 0 s)
      | 181 => .ok (dab inVal "stdux" 7 0 0 0 PPCF_SIXTY_FOUR s)
      | 183 => .ok (dab inVal "stwux" 7 0 0 0 0 s)
      | 200 | 712 =>
          if tst inVal 0x0000f800 then .ok (ill inVal s)
          else .ok (dab inVal "subfze" 6 0 1 (-1) 0 s)
      | 202 | 714 =>
          if tst inVal 0x0000f800 then .ok (ill inVal s)
          else .ok (dab inVal "addze" 6 0 1 (-1) 0 s)
      | 210 => .ok (msr inVal 1 s)
      | 214 => .ok (dab inVal "stdcx." 7 0 0 1 PPCF_SIXTY_FOUR s)
      | 215 => .ok (dab inVal "stbx" 7 0 0 0 0 s)
      | 232 | 744 =>
          if tst inVal 0x0000f800 then .ok (ill inVal s)
          else .ok (dab inVal "subfme" 6 0 1 (-1) 0 s)
      | 233 | 745 => .ok (dab inVal "mulld" 7 0 1 (-1) PPCF_SIXTY_FOUR s)
      | 234 | 746 =>
          if tst inVal 0x0000f800 then .ok (ill inVal s)
          else .ok (dab inVal "addme" 6 0 1 (-1) 0 s)
      | 235 | 747 => .ok (dab inVal "mullw" 7 0 1 (-1) 0 s)
      | 242 =>
          if tst inVal 0x001f0000 then .ok (ill inVal s)
          else .ok (dab inVal "mtsrin" 5 0 0 0 PPCF_SUPER s)
      | 246 =>
          if tst inVal 0x03e00000 then .ok (ill inVal s)
          else .ok (dab inVal "dcbtst" 3 0 0 0 0 s)
      | 247 => .ok (dab inVal "stbux" 7 0 0 0 0 s)
      | 266 | 778 => .ok (dab inVal "add" 7 0 1 (-1) 0 s)
      | 278 =>
          if tst inVal 0x03e00000 then .ok (ill inVal s)
          else .ok (dab inVal "dcbt" 3 0 0 0 0 s)
      | 279 => .ok (dab inVal "lhzx" 7 0 0 0 0 s)
      | 284 => .ok (dab inVal "eqv" 7 1 0 (-1) 0 s)
      | 306 =>
          if tst inVal (0x03e00000 ||| 0x001f0000) then .ok (ill inVal s)
          else .ok (dab inVal "tlbie" 1 0 0 0 PPCF_SUPER s)
      | 310 => .ok (dab inVal "eciwx" 7 0 0 0 0 s)
      | 311 => .ok (dab inVal "lhzux" 7 0 0 0 0 s)
      | 316 => .ok (dab inVal "xor" 7 1 0 (-1) 0 s)
      | 339 => .ok (mspr inVal 0 s)
      | 341 => .ok (dab inVal "lwax" 7 0 0 0 PPCF_SIXTY_FOUR s)
      | 343 => .ok (dab inVal "lhax" 7 0 0 0 0 s)
      | 370 => .ok (nooper inVal "tlbia" PPCF_SUPER s)
      | 371 => .ok (mtb inVal s)
      | 373 => .ok (dab inVal "lwaux" 7 0 0 0 PPCF_SIXTY_FOUR s)
      | 375 => .ok (dab inVal "lhaux" 7 0 0 0 0 s)
      | 407 => .ok (dab inVal "sthx" 7 0 0 0 0 s)
      | 412 => .ok (dab inVal "orc" 7 1 0 (-1) 0 s)
      | 413 => .ok (sradi inVal s)
      | 434 =>
          if tst inVal (0x03e00000 ||| 0x001f0000) then .ok (ill inVal s)
          else .ok (dab inVal "slbie" 1 0 0 0 (PPCF_SUPER ||| PPCF_SIXTY_FOUR) s)
      | 438 => .ok (dab inVal "ecowx" 7 0 0 0 0 s)
      | 439 => .ok (dab inVal "sthux" 7 0 0 0 0 s)
      | 444 =>
          if PPCGETD inVal = PPCGETB inVal then .ok (dab inVal "mr" 6 1 0 (-1) 0 s)
          else .ok (dab inVal "or" 7 1 0 (-1) 0 s)
      | 457 | 969 => .ok (dab inVal "divdu" 7 0 1 (-1) PPCF_SIXTY_FOUR s)
      | 459 | 971 => .ok (dab inVal "divwu" 7 0 1 (-1) 0 s)
      | 467 => .ok (mspr inVal 1 s)
      | 470 =>
          if tst inVal 0x03e00000 then .ok (ill inVal s)
          else .ok (dab inVal "dcbi" 3 0 0 0 0 s)
      | 476 => .ok (dab inVal "nand" 7 1 0 (-1) 0 s)
      | 489 | 1001 => .ok (dab inVal "divd" 7 0 1 (-1) PPCF_SIXTY_FOUR s)
      | 491 | 1003 => .ok (dab inVal "divw" 7 0 1 (-1) 0 s)
      | 498 => .ok (nooper inVal "slbia" (PPCF_SUPER ||| PPCF_SIXTY_FOUR) s)
      | 512 =>
          if tst inVal 0x007ff801 then .ok (ill inVal s)
          else .ok { s with opcode := "mcrxr",
                            operands := "cr" ++ decStrN (PPCGETCRD inVal) }
      | 533 => .ok (dab inVal "lswx" 7 0 0 0 0 s)
      | 534 => .ok (dab inVal "lwbrx" 7 0 0 0 0 s)
      | 535 => .ok (fdab inVal "lfsx" 7 s)
      | 536 => .ok (dab inVal "srw" 7 1 0 (-1) 0 s)
      | 539 => .ok (dab inVal "srd" 7 1 0 (-1) PPCF_SIXTY_FOUR s)
      | 566 => .ok (nooper inVal "tlbsync" PPCF_SUPER s)
      | 567 => .ok (fdab inVal "lfsux" 7 s)
      | 595 => .ok (msr inVal 0 s)
      | 597 => .ok (rrn inVal "lswi" 0 0 0 0 s)
      | 598 => .ok (nooper inVal "sync" PPCF_SUPER s)
      | 599 => .ok (fdab inVal "lfdx" 7 s)
      | 631 => .ok (fdab inVal "lfdux" 7 s)
      | 659 =>
          if tst inVal 0x001f0000 then .ok (ill inVal s)
          else .ok (dab inVal "mfsrin" 5 0 0 0 PPCF_SUPER s)
      | 661 => .ok (dab inVal "stswx" 7 0 0 0 0 s)
      | 662 => .ok (dab inVal "stwbrx" 7 0 0 0 0 s)
      | 663 => .ok (fdab inVal "stfsx" 7 s)
      | 695 => .ok (fdab inVal "stfsux" 7 s)
      | 725 => .ok (rrn inVal "stswi" 0 0 0 0 s)
      | 727 => .ok (fdab inVal "stfdx" 7 s)
      | 759 => .ok (fdab inVal "stfdux" 7 s)
      | 790 => .ok (dab inVal "lhbrx" 7 0 0 0 0 s)
      | 792 => .ok (dab inVal "sraw" 7 1 0 (-1) 0 s)
      | 794 => .ok (dab inVal "srad" 7 1 0 (-1) PPCF_SIXTY_FOUR s)
      | 824 => .ok (rrn inVal "srawi" 1 0 (-1) 0 s)
      | 854 => .ok (nooper inVal "eieio" PPCF_SUPER s)
      | 918 => .ok (dab inVal "sthbrx" 7 0 0 0 0 s)
      | 922 =>
          if tst inVal 0x0000f800 then .ok (ill inVal s)
          else .ok (dab inVal "extsh" 6 1 0 (-1) 0 s)
      | 954 =>
          if tst inVal 0x0000f800 then .ok (ill inVal s)
          else .ok (dab inVal "extsb" 6 1 0 (-1) 0 s)
      | 982 =>
          if tst inVal 0x03e00000 then .ok (ill inVal s)
          else .ok (dab inVal "icbi" 3 0 0 0 0 s)
      | 983 => .ok (fdab inVal "stfiwx" 7 s)
      | 986 =>
          if tst inVal 0x0000f800 then .ok (ill inVal s)
          else .ok (dab inVal "extsw" 6 1 0 (-1) PPCF_SIXTY_FOUR s)
      | 1014 =>
          if tst inVal 0x03e00000 then .ok (ill inVal s)
          else .ok (dab inVal "dcbz" 3 0 0 0 0 s)
      | _ => .ok (ill inVal s)
  | 32 | 33 | 34 | 35 | 36 | 37 | 38 | 39 | 40 | 41 | 42 | 43 | 44 | 45 | 46 | 47 =>
      .ok (ldst inVal (jsIdx ldstnames (PPCGETIDX inVal - 32)) "r" 0 s)
  | 48 | 49 | 50 | 51 | 52 | 53 | 54 | 55 =>
      .ok (ldst inVal (jsIdx ldstnames (PPCGETIDX inVal - 32)) "f" 0 s)
  | 58 =>
      match toUint32 (jsAnd inVal 3) with
      | 0 => .ok (ldst (jsAnd inVal (jsNot 3)) "ld" "r" PPCF_SIXTY_FOUR s)
      | 1 => .ok (ldst (jsAnd inVal (jsNot 3)) "ldu" "r" PPCF_SIXTY_FOUR s)
      | 2 => .ok (ldst (jsAnd inVal (jsNot 3)) "lwa" "r" PPCF_SIXTY_FOUR s)
      | _ => .ok (ill inVal s)
  | 59 =>
      match toUint32 (jsAnd inVal 0x3e) with
      | 36 => .ok (fdabc inVal "divs" 5 0 s)
      | 40 => .ok (fdabc inVal "subs" 5 0 s)
      | 42 => .ok (fdabc inVal "adds" 5 0 s)
      | 44 => .ok (fdabc inVal "sqrts" 1 0 s)
      | 48 => .ok (fdabc inVal "res" 1 0 s)
      | 50 => .ok (fdabc inVal "muls" 6 0 s)
      | 56 => .ok (fdabc inVal "msubs" 7 0 s)
      | 58 => .ok (fdabc inVal "madds" 7 0 s)
      | 60 => .ok (fdabc inVal "nmsubs" 7 0 s)
      | 62 => .ok (fdabc inVal "nmadds" 7 0 s)
      | _ => .ok (ill inVal s)
  | 62 =>
      match toUint32 (jsAnd inVal 3) with
      | 0 => .ok (ldst (jsAnd inVal (jsNot 3)) "std" "r" PPCF_SIXTY_FOUR s)
      | 1 => .ok (ldst (jsAnd inVal (jsNot 3)) "stdu" "r" PPCF_SIXTY_FOUR s)
      | _ => .ok (ill inVal s)
  | 63 =>
      if tst inVal 32 then
        match toUint32 (jsAnd inVal 0x1e) with
        | 4 => .ok (fdabc inVal "div" 5 0 s)
        | 8 => .ok (fdabc inVal "sub" 5 0 s)
        | 10 => .ok (fdabc inVal "add" 5 0 s)
        | 12 => .ok (fdabc inVal "sqrt" 1 0 s)
        | 14 => .ok (fdabc inVal "sel" 7 0 s)
        | 18 => .ok (fdabc inVal "mul" 6 0 s)
        | 20 => .ok (fdabc inVal "rsqrte" 1 0 s)
        | 24 => .ok (fdabc inVal "msub" 7 0 s)
        | 26 => .ok (fdabc inVal "madd" 7 0 s)
        | 28 => .ok (fdabc inVal "nmsub" 7 0 s)
        | 30 => .ok (fdabc inVal "nmadd" 7 0 s)
        | _ => .ok (ill inVal s)
      else
        match PPCGETIDX2 inVal with
        | 0 => .ok (fcmp inVal "u" s)
        | 12 => .ok (fdabc inVal "rsp" 1 0 s)
        | 14 => .ok (fdabc inVal "ctiw" 1 0 s)
        | 15 => .ok (fdabc inVal "ctiwz" 1 0 s)
        | 32 => .ok (fcmp inVal "o" s)
        | 38 => .ok (mtfsb inVal 1 s)
        | 40 => .ok (fdabc inVal "neg" 9 0 s)
        | 64 => .ok (mcrf inVal "s" s)
        | 70 => .ok (mtfsb inVal 0 s)
        | 72 => .ok (fmr inVal s)
        | 134 =>
            if jsAnd inVal 0x006f0800 = 0 then
              .ok { s with opcode := "mtfsfi" ++ jsIdx rcsel (getFromMask 1 0 inVal),
                           operands := "cr" ++ decStrN (PPCGETCRD inVal) ++ ","
                             ++ decStrN (toUint32 (jsAnd inVal 0xf000) >>> 12) }
            else .ok (ill inVal s)
        | 136 => .ok (fdabc inVal "nabs" 9 0 s)
        | 264 => .ok (fdabc inVal "abs" 9 0 s)
        | 583 =>
            if tst inVal (0x001f0000 ||| 0x0000f800) then .ok (ill inVal s)
            else .ok (dab inVal "mffs" 4 0 0 (-1) 0 s)
        | 711 =>
            if jsAnd inVal 0x02010000 = 0 then
              .ok { s with opcode := "mtfsf" ++ jsIdx rcsel (getFromMask 1 0 inVal),
                           operands := "0x" ++ fmtX (jsAnd (jsShrA inVal 17) 0xff)
                             ++ ", f" ++ decStrN (PPCGETB inVal) }
            else .ok (ill inVal s)
        | 814 => .ok (fdabc inVal "fctid" 9 PPCF_SIXTY_FOUR s)
        | 815 => .ok (fdabc inVal "fctidz" 9 PPCF_SIXTY_FOUR s)
        | 846 => .ok (fdabc inVal "fcfid" 9 PPCF_SIXTY_FOUR s)
        | _ => .ok (ill inVal s)
  | _ => .ok (ill inVal s)

/-- disassemble from the source: renders opcode, a tab, and the
operands. -/
def disassemble (opcode instrAddr : Int) : Except String String :=
  match doDisassembly opcode instrAddr with
  | .ok s => .ok (s.opcode ++ "\t" ++ s.operands)
  | .error e => .error e

end Gekko

/-!
Embedding of src/relProcessor.js.

The section buffer is modelled as the list of its big-endian 32-bit
words (word i sits at section offset 4*i; reading the words out of the
Buffer is Node library code outside the core).  The two symbol maps are
modelled as functions from a numeric key to an optional name; a missing
key is undefined and an empty-string name is falsy, matching the
JavaScript truthiness tests the source performs.  Output-stream writes
are modelled by accumulating a string; a thrown TypeError is modelled
as Except.error (the source has no try/catch in either pass).
-/

namespace RelProc

open JsNum JsStr

def clearMsb : Int := 0x7fffffff

def labelNames : List String :=
  ["APPLE", "BANANA", "CHOCOLATE", "DONUT", "EGGPLANT", "FLAMINGO",
   "GRAPEFRUIT", "HARPOON", "IGLOO", "JELLYFISH", "KAYAK", "LOBSTER",
   "MILK", "NOODLE", "ORANGE", "PAPER", "QUARTZ", "RASPBERRY",
   "SANDWICH", "TANGERINE", "UNICORN", "VIOLIN", "WATER", "XRAY",
   "YOYO", "ZEBRA"]

def EQUALS_DIVIDER : String := (List.replicate 50 (Char.ofNat 61)).asString ++ "\n"

/-- JavaScript truthiness of a possibly-absent string value: undefined
and the empty string are falsy. -/
def truthy : Option String → Bool
  | none => false
  | some s => s ≠ ""

/-- The character class backslash-s of JavaScript regular expressions,
restricted to the whitespace characters that can occur here. -/
def isJsSpace (c : Char) : Bool :=
  c = ' ' ∨ c = '\t' ∨ c = '\n' ∨ c = '\r' ∨ c = '\x0b' ∨ c = '\x0c'

/-- The character class of lowercase hexadecimal digits. -/
def isHexDig (c : Char) : Bool :=
  ('0' ≤ c ∧ c ≤ '9') ∨ ('a' ≤ c ∧ c ≤ 'f')

/-- Matching of the pattern tail: whitespace-star, the literal arrow
followed by 0x, then exactly eight hex digits (captured).  Consuming the
maximal run of whitespace is equivalent to the backtracking semantics
because stopping earlier leaves a whitespace character where the literal
expects a minus sign. -/
def tryTail (rest : List Char) : Option String :=
  match rest.dropWhile isJsSpace with
  | '-' :: '>' :: '0' :: 'x' :: t =>
      let h := t.take 8
      if h.length = 8 ∧ h.all isHexDig then some (String.mk h) else none
  | _ => none

/-- Greedy matching of the capture group (b followed by nonspace-star):
longer groups are tried first, mirroring greedy backtracking. -/
def greedyScan (groupAcc : List Char) : List Char → List Char → Option (String × String)
  | [], rest => (tryTail rest).map (fun h => (String.mk groupAcc.reverse, h))
  | c :: t, rest =>
      match greedyScan (c :: groupAcc) t rest with
      | some r => some r
      | none => (tryTail (c :: t ++ rest)).map (fun h => (String.mk groupAcc.reverse, h))

/-- instr.match of the branch pattern used identically by both passes:
anchored at the start, a b followed by a greedy nonspace run (group 1),
optional whitespace, the literal arrow and 0x, and eight hex digits
(group 2). -/
def branchMatch (instr : String) : Option (String × String) :=
  match instr.data with
  | 'b' :: t =>
      greedyScan ['b'] (t.takeWhile (fun c => !(isJsSpace c)))
        (t.dropWhile (fun c => !(isJsSpace c)))
  | _ => none

/-- Numeric value of Number applied to 0x followed by the captured hex
digits. -/
def hexDigVal (c : Char) : Nat :=
  if '0' ≤ c ∧ c ≤ '9' then c.toNat - 48
  else if 'a' ≤ c ∧ c ≤ 'f' then c.toNat - 87
  else 0

def hexValNat (h : String) : Nat :=
  h.data.foldl (fun acc c => acc * 16 + hexDigVal c) 0

/-- The test of the anchored pattern blr followed by exactly one
whitespace character at end of string. -/
def isBlrLine (instr : String) : Bool :=
  match instr.data with
  | ['b', 'l', 'r', c] => isJsSpace c
  | _ => false

/-- Destination records of one function scope: destination address to
reachedFromBelow flag, kept in ascending numeric key order (the
ECMAScript enumeration order of array-index object keys). -/
abbrev FnObj := List (Int × Bool)

/-- The analyzer object: function offset to its destination records. -/
abbrev ScopesRaw := List (Int × FnObj)

/-- branchDestinations: function offset to (destination address to
label name). -/
abbrev Scopes := List (Int × List (Int × String))

def lookupA {α : Type} : List (Int × α) → Int → Option α
  | [], _ => none
  | (k0, v) :: t, k => if k0 = k then some v else lookupA t k

/-- Insert a fresh destination record (reachedFromBelow false) keeping
ascending numeric key order. -/
def insertDest : FnObj → Int → FnObj
  | [], k => [(k, false)]
  | (k0, v) :: t, k =>
      if k < k0 then (k, false) :: (k0, v) :: t
      else (k0, v) :: insertDest t k

/-- Set the reachedFromBelow flag of one destination record. -/
def setRfb (l : FnObj) (k : Int) : FnObj :=
  l.map (fun p => if p.1 = k then (p.1, true) else p)

/-- obj[currRelFnOffset] = empty object: replace an existing scope or
append a new one (function offsets arrive in increasing order, so the
enumeration order stays ascending). -/
def setScope : ScopesRaw → Int → ScopesRaw
  | [], k => [(k, [])]
  | (k0, v) :: t, k => if k0 = k then (k, []) :: t else (k0, v) :: setScope t k

/-- Store back the updated destination records of one scope. -/
def setScopeVal (l : ScopesRaw) (k : Int) (v : FnObj) : ScopesRaw :=
  l.map (fun p => if p.1 = k then (p.1, v) else p)

structure ScanSt where
  curr : Int
  obj : ScopesRaw
deriving Repr, DecidableEq

/-- The per-instruction callback of populateBranchDestinations.  When no
scope has been opened yet (no module-map entry at or before the current
offset) and a recordable branch occurs, obj[currRelFnOffset] is
undefined and the record access throws. -/
def scanStep (relMap : Int → Option String) (sectionAddr : Int) (st : ScanSt)
    (o : Int) (instr : String) : Except String ScanSt :=
  let st := if truthy (relMap o) then { curr := o, obj := setScope st.obj o } else st
  match branchMatch instr with
  | none => .ok st
  | some (g, hx) =>
      if g = "bl" then .ok st
      else
        match lookupA st.obj st.curr with
        | none => .error "TypeError: cannot read properties of undefined"
        | some fnObj =>
            let bDestNum : Int := (hexValNat hx : Int)
            let fnObj :=
              if (lookupA fnObj bDestNum).isSome then fnObj
              else insertDest fnObj bDestNum
            let fnObj :=
              if (lookupA fnObj bDestNum).getD false = false then
                if sectionAddr + o > bDestNum then setRfb fnObj bDestNum else fnObj
              else fnObj
            .ok { st with obj := setScopeVal st.obj st.curr fnObj }

def scanList (relMap : Int → Option String) (sectionAddr : Int) :
    ScanSt → List (Int × String) → Except String ScanSt
  | st, [] => .ok st
  | st, (o, t) :: rest =>
      match scanStep relMap sectionAddr st o t with
      | .error e => .error e
      | .ok st => scanList relMap sectionAddr st rest

/-- Lexicographic order on UTF-16 code unit sequences, the default
Array.prototype.sort comparator. -/
def lexLtChars : List Char → List Char → Bool
  | [], [] => false
  | [], _ :: _ => true
  | _ :: _, [] => false
  | a :: as, b :: bs =>
      if a.toNat < b.toNat then true
      else if b.toNat < a.toNat then false
      else lexLtChars as bs

/-- Object.keys yields the decimal string of a numeric key;
Object.keys(fnObj).sort() compares those strings lexicographically, not
numerically. -/
def keyLt (a b : Int) : Bool := lexLtChars (Int.repr a).data (Int.repr b).data

def sortInsert (k : Int) : List Int → List Int
  | [] => [k]
  | x :: xs => if keyLt k x then k :: x :: xs else x :: sortInsert k xs

/-- Insertion sort by the string comparator. -/
def sortKeys (l : List Int) : List Int := l.foldr sortInsert []

/-- Label pool assignment: pool names below index 26; beyond that a
letter chosen by index mod 26, repeated (index div 26) times. -/
def labelFor (labelIndex : Nat) : String :=
  if labelIndex < 26 then labelNames.getD labelIndex "undefined"
  else
    let numChars := labelIndex / 26
    let character := Char.ofNat (0x61 + labelIndex % 26)
    (List.replicate numChars character).asString

/-- The per-scope labelling stage of populateBranchDestinations: sort
the decimal key strings lexicographically; if the scope is nonempty and
the last key of that order has reachedFromBelow false it becomes the
FINISH_FUNCTION slot; all keys are then walked in enumeration order and
every non-finish key receives the pool name of its running index (the
index advances on the finish slot as well). -/
def assignScopeLabels (fnObj : FnObj) : List (Int × String) :=
  let arr := sortKeys (fnObj.map (fun p => p.1))
  let addrForFinishFn : Option Int :=
    if h : arr ≠ [] then
      if (lookupA fnObj (arr.getLast h)).getD false = false then
        some (arr.getLast h)
      else none
    else none
  ((List.range fnObj.length).zip fnObj).map
    (fun p =>
      (p.2.1,
       if some p.2.1 = addrForFinishFn then "FINISH_FUNCTION" else labelFor p.1))

/-- disassembleSection from the source: decode the word at every offset
0, 4, 8, ... and hand (instruction text, offset) to the consumer; here
the pairs are collected in order. -/
def disassembleSection (sectionAddr : Int) : Int → List Int →
    Except String (List (Int × String))
  | _, [] => .ok []
  | o, w :: ws =>
      match Gekko.disassemble w (sectionAddr + o) with
      | .error e => .error e
      | .ok t =>
          match disassembleSection sectionAddr (o + 4) ws with
          | .error e => .error e
          | .ok rest => .ok ((o, t) :: rest)

/-- populateBranchDestinations from the source: scan pass followed by
the per-scope labelling stage. -/
def populateBranchDestinations (sectionAddr : Int) (relMap : Int → Option String)
    (words : List Int) : Except String Scopes :=
  match disassembleSection sectionAddr 0 words with
  | .error e => .error e
  | .ok ts =>
      match scanList relMap sectionAddr { curr := 0, obj := [] } ts with
      | .error e => .error e
      | .ok st => .ok (st.obj.map (fun p => (p.1, assignScopeLabels p.2)))

structure EmitSt where
  out : String
  startingNewFn : Bool
  leaveBlankLine : Bool
  curr : Int
deriving Repr, DecidableEq

/-- The annotation block of the emission callback (lines 156 to 182 of
relProcessor.js): resolve a call target through the framework map then
the module map, or a branch target through the active scope of
branchDestinations; the scope access throws when the active scope is
undefined. -/
def annotateInstr (frameworkMap relMap : Int → Option String) (sectionAddr : Int)
    (bd : Scopes) (curr : Int) (instr : String) : Except String String :=
  match branchMatch instr with
  | none => .ok instr
  | some (g, hx) =>
      if g = "bl" then
        let blTarget : Int := (hexValNat hx : Int)
        let blName := frameworkMap blTarget
        if truthy blName then
          .ok (instr ++ " ___ " ++ hx ++ " " ++ blName.getD "" ++ " ___")
        else
          let a : Int := jsAnd (blTarget - sectionAddr) clearMsb
          let relOffsetText := "0x" ++ fmtX a ++ " "
          let blName := relMap a
          if truthy blName then
            .ok (instr ++ " ___ " ++ hx ++ " " ++ relOffsetText ++ blName.getD ""
                   ++ " ___")
          else .ok (instr ++ " UNRECOGNIZED BRANCH")
      else if g ≠ "blr" then
        let targetAddr : Int := (hexValNat hx : Int)
        match lookupA bd curr with
        | none => .error "TypeError: cannot read properties of undefined"
        | some sc =>
            let targetName := lookupA sc targetAddr
            if truthy targetName then
              .ok (instr ++ " ===> " ++ targetName.getD "" ++ "_" ++ hx)
            else .ok (instr ++ " UNRECOGNIZED BRANCH TARGET")
      else .ok instr

/-- The blank-line or function-header block of the emission callback
(lines 184 to 205 of relProcessor.js). -/
def blankOrHeader (relMap : Int → Option String) (sectionAddr : Int) (st : EmitSt)
    (o : Int) : EmitSt :=
  if st.leaveBlankLine then
    { st with leaveBlankLine := false, out := st.out ++ "\n" }
  else if st.startingNewFn then
    let st := { st with startingNewFn := false }
    let st := if o > 0 then { st with out := st.out ++ "\n\n" } else st
    let fnName :=
      if truthy (relMap o) then (relMap o).getD "" else "UNKNOWN FUNCTION"
    { st with out := st.out ++ EQUALS_DIVIDER ++ "0x" ++ fmtX o ++ " "
                ++ fmtX8 (jsOr 0x80000000 sectionAddr + o) ++ " " ++ fnName
                ++ ":\n" ++ EQUALS_DIVIDER }
  else st

/-- The per-instruction emission callback of processTextSection.  The
blank-line or header block is followed by the label-line check, the
instruction line itself, and the boundary bookkeeping: a plain b
schedules a blank line; a blr line starts a new function block exactly
when branchDestinations has a scope keyed at the next offset (a scope
object is truthy even when empty), otherwise it schedules a blank
line. -/
def emitStep (relMap frameworkMap : Int → Option String) (sectionAddr : Int)
    (bd : Scopes) (st : EmitSt) (o : Int) (instr0 : String) : Except String EmitSt :=
  let st := if truthy (relMap o) then { st with curr := o } else st
  match annotateInstr frameworkMap relMap sectionAddr bd st.curr instr0 with
  | .error e => .error e
  | .ok instr =>
      let st := blankOrHeader relMap sectionAddr st o
      match lookupA bd st.curr with
      | none => .error "TypeError: cannot read properties of undefined"
      | some sc =>
          let st :=
            if truthy (lookupA sc (sectionAddr + o)) then
              { st with out := st.out ++ (lookupA sc (sectionAddr + o)).getD ""
                          ++ "_" ++ fmtX8 (sectionAddr + o) ++ ":\n" }
            else st
          let st := { st with out := st.out ++ "\t" ++ instr ++ "\n" }
          let st :=
            if (match branchMatch instr0 with
                | some (g, _) => g = "b"
                | none => false : Bool) then
              { st with leaveBlankLine := true }
            else if isBlrLine instr then
              if (lookupA bd (o + 4)).isSome then { st with startingNewFn := true }
              else { st with leaveBlankLine := true }
            else st
          .ok st

def emitList (relMap frameworkMap : Int → Option String) (sectionAddr : Int)
    (bd : Scopes) : EmitSt → List (Int × String) → Except String EmitSt
  | st, [] => .ok st
  | st, (o, t) :: rest =>
      match emitStep relMap frameworkMap sectionAddr bd st o t with
      | .error e => .error e
      | .ok st => emitList relMap frameworkMap sectionAddr bd st rest

/-- processTextSection from the source, output-stream writes modelled by
string accumulation: the module-name preamble, then the emission walk
over the section (the source decodes the section once inside
populateBranchDestinations and again for emission; decoding is
deterministic, so the text list is shared here). -/
def processTextSection (sectionAddr : Int) (relMap frameworkMap : Int → Option String)
    (relName : String) (words : List Int) : Except String String :=
  match populateBranchDestinations sectionAddr relMap words with
  | .error e => .error e
  | .ok bd =>
      match disassembleSection sectionAddr 0 words with
      | .error e => .error e
      | .ok ts =>
          match emitList relMap frameworkMap sectionAddr bd
              { out := relName ++ ".rel\n\n", startingNewFn := true,
                leaveBlankLine := false, curr := 0 } ts with
          | .error e => .error e
          | .ok st => .ok st.out

end RelProc

/-!
Observers used only to state facts about the emitted text.
-/

/-- The fifty-character divider line of the emitted output. -/
def dividerLine : String := (List.replicate 50 (Char.ofNat 61)).asString

/-- Split a character list at newline characters. -/
def splitNl : List Char → List (List Char)
  | [] => [[]]
  | c :: t =>
      match splitNl t with
      | [] => [[c]]
      | h :: r => if c = '\n' then [] :: h :: r else (c :: h) :: r

/-- The lines of an output string: the segments between newline
characters. -/
def linesOf (s : String) : List String := (splitNl s.data).map String.mk

/-- Modelled from the spec (the load/store group of section 4), amended
with the zero special case: the 16-bit displacement value m renders in
hexadecimal always, as a minus sign and 0x%04x of the two's-complement
magnitude when the sign bit is set, and as 0x%04x of the value
otherwise. -/
def specLdstDisplacementFormat (m : Nat) : String :=
  if m = 0 then "0"
  else if 32768 ≤ m then "-0x" ++ JsStr.padZero 4 (JsStr.natHex (65536 - m))
  else "0x" ++ JsStr.padZero 4 (JsStr.natHex m)

/-!
Claim theorems.
-/

/-- C1: the specification says the decoder is total, returning a value
for every 32-bit word and flagging unrecognized patterns Illegal instead
of failing.  The code path for condition-register logical operations
with clear Rc bit and equal source condition fields calls n2.empty() on
a value that has no such method and raises a TypeError, so decoding is
not total.  The word 0x4C000042 is crnor with all fields zero, i.e. the
common crnot alias pattern.  This is a porting slip: the adjacent
commented-out C++ lines test std::string::empty() and show the intended
alias rendering, so the specification describes the intent and the code
is wrong. -/
theorem decode_crnot_raises_typeerror :
    Gekko.doDisassembly 0x4C000042 0 =
      .error "TypeError: n2.empty is not a function" := rfl

/-- C2 counterexample: with both symbol maps supplied but the
module-local map holding no entry at section offset 0 (here both maps
are empty) the emission pass reads branchDestinations[0], which is
undefined, and a TypeError escapes while processing the very first
instruction; the claim asserts no exception escapes in exactly this
situation. -/
theorem emission_pass_throws_without_offset_zero_entry :
    RelProc.processTextSection 0 (fun _ => none) (fun _ => none) "m" [0]
      = .error "TypeError: cannot read properties of undefined" := rfl

/-- C6 counterexample: the all-zero word decodes to the empty mnemonic
and the placeholder operand text, but the resulting flags word is
PPCF.ILLEGAL (ill sets the flag unconditionally, also for the zero
word), contradicting the claim that the zero word is not flagged
Illegal. -/
theorem decode_zero_word_sets_illegal_flag :
    Gekko.doDisassembly 0 0 = .ok ⟨"", "---", 0, 1, 0, 0⟩ ∧
      (1 : Nat) &&& Gekko.PPCF_ILLEGAL ≠ 0 := ⟨rfl, by decide⟩

/-- C6 amended: decoding the all-zero word at any address yields an
empty mnemonic, operand text of three dashes, and an instruction that
IS flagged Illegal (the zero special case changes only the rendered
text, not the flag). -/
theorem decode_zero_word_spec :
    ∀ a : Int, Gekko.doDisassembly 0 a =
      .ok ⟨"", "---", Gekko.PPCINSTR_OTHER, Gekko.PPCF_ILLEGAL, 0, 0⟩ :=
  fun _ => rfl

/-- C9 counterexample: the word 0x4800000B has displacement field bits
3..25 holding the value 8 (bit 3 is set), not 0; it decodes to mnemonic
bla with operand text showing target 8, not 0 as the claim states. -/
theorem bla_word_operand_text :
    Gekko.doDisassembly 0x4800000B 0x80001000 =
        .ok ⟨"bla", "->0x00000008", 1, 0, 0, 8⟩ ∧
      "->0x00000008" ≠ "->0x00000000" := ⟨rfl, by decide⟩

/-- C9 amended: decoding word 0x4800000B at address 0x80001000 yields
mnemonic bla, operand text with absolute target 8, branch
classification, and displacement (branch target) 8. -/
theorem bla_word_decode :
    Gekko.doDisassembly 0x4800000B 0x80001000 =
      .ok ⟨"bla", "->0x00000008", Gekko.PPCINSTR_BRANCH, 0, 0, 8⟩ := rfl

/-- C10 counterexample: a zero displacement renders as the single
character 0, not as the 0x%04x form the claim prescribes for
non-negative displacements; shown both on the helper and on the decode
of lwz r0, 0(r0). -/
theorem zero_displacement_renders_plain_zero :
    Gekko.ldst_offs 0 = "0" ∧ "0" ≠ "0x0000" ∧
      Gekko.doDisassembly 0x80000000 0 = .ok ⟨"lwz", "r0, 0 (r0)", 2, 0, 0, 0⟩ :=
  ⟨rfl, by decide, rfl⟩

set_option maxRecDepth 8192 in
/-- C3 counterexample: a function scope whose recorded destinations are
8 (reached from below: a branch at address 12 targets it) and 100
(never reached from below).  The numerically highest destination, 100,
has no backward reference, so the claim requires exactly one
FINISH_FUNCTION name in the scope; but Object.keys(...).sort() orders
the decimal strings lexicographically, putting the string 8 after the
string 100, and since destination 8 is reached from below no
destination at all is named FINISH_FUNCTION. -/
theorem finish_function_follows_string_sort :
    RelProc.disassembleSection 0 0 [0x48000066, 0, 0, 0x4800000A] =
        .ok [(0, "ba\t->0x00000064"), (4, "\t---"), (8, "\t---"),
             (12, "ba\t->0x00000008")] ∧
      RelProc.scanList (fun o => if o = 0 then some "fn" else none) 0 ⟨0, []⟩
          [(0, "ba\t->0x00000064"), (4, "\t---"), (8, "\t---"),
           (12, "ba\t->0x00000008")] =
        .ok ⟨0, [(0, [(8, true), (100, false)])]⟩ ∧
      RelProc.populateBranchDestinations 0 (fun o => if o = 0 then some "fn" else none)
          [0x48000066, 0, 0, 0x4800000A] =
        .ok [(0, [(8, "APPLE"), (100, "BANANA")])] ∧
      ¬ ("FINISH_FUNCTION" ∈ ["APPLE", "BANANA"]) :=
  ⟨rfl, rfl, rfl, by decide⟩

set_option maxRecDepth 8192 in
/-- C4 counterexample: the canonical two-instruction function (a branch
at the section start targeting the next instruction, then blr) produces
a label line immediately before the second rendered line, but that
label IS the reserved FINISH_FUNCTION name: the branch source at
address 0 precedes destination 4, so reached-from-below stays false and
the single destination becomes the finish slot. -/
theorem two_instr_function_label_is_finish :
    (RelProc.processTextSection 0 (fun o => if o = 0 then some "fn" else none)
        (fun _ => none) "fn" [0x48000004, 0x4E800020]).map linesOf =
      .ok ["fn.rel", "", dividerLine,
        "0x0 -80000000 fn:", dividerLine,
        "\tb\t->0x00000004 ===> FINISH_FUNCTION_00000004", "",
        "FINISH_FUNCTION_00000004:", "\tblr\t", ""] ∧
      ["fn.rel", "", dividerLine,
        "0x0 -80000000 fn:", dividerLine,
        "\tb\t->0x00000004 ===> FINISH_FUNCTION_00000004", "",
        "FINISH_FUNCTION_00000004:", "\tblr\t", ""].get? 7 =
        some "FINISH_FUNCTION_00000004:" :=
  ⟨rfl, by decide⟩

set_option maxRecDepth 8192 in
/-- C4 amended: the two-instruction function produces exactly one label
line, placed immediately before the second rendered instruction line,
and that label is FINISH_FUNCTION. -/
theorem two_instr_function_output :
    ∃ out,
      RelProc.processTextSection 0 (fun o => if o = 0 then some "fn" else none)
          (fun _ => none) "fn" [0x48000004, 0x4E800020] = .ok out ∧
        (linesOf out).get? 7 = some "FINISH_FUNCTION_00000004:" ∧
        (linesOf out).get? 8 = some "\tblr\t" ∧
        (linesOf out).count "FINISH_FUNCTION_00000004:" = 1 ∧
        (linesOf out).countP (fun l => l.data.getLast? = some ':' && l.data.head? = some 'F') = 1 :=
  ⟨("fn.rel\n\n" ++ dividerLine ++ "\n0x0 -80000000 fn:\n" ++ dividerLine ++ "\n\tb\t->0x00000004 ===> FINISH_FUNCTION_00000004\n\nFINISH_FUNCTION_00000004:\n\tblr\t\n"),
   rfl, by decide, by decide, by decide, by decide⟩

set_option maxRecDepth 8192 in
/-- C8 counterexample: two consecutive one-instruction functions; the
lines at indices 6 and 7, between the last line of the first block and
the divider of the second, are both empty: two blank lines separate
consecutive function blocks, not exactly one (the boundary write is two
newline characters after a line that already ended in a newline). -/
theorem two_blank_lines_between_blocks :
    (RelProc.processTextSection 0
        (fun o => if o = 0 then some "a" else if o = 4 then some "b" else none)
        (fun _ => none) "m" [0x4E800020, 0x4E800020]).map linesOf =
      .ok ["m.rel", "", dividerLine,
        "0x0 -80000000 a:", dividerLine,
        "\tblr\t", "", "", dividerLine,
        "0x4 -7ffffffc b:", dividerLine,
        "\tblr\t", ""] ∧
      ["m.rel", "", dividerLine,
        "0x0 -80000000 a:", dividerLine,
        "\tblr\t", "", "", dividerLine,
        "0x4 -7ffffffc b:", dividerLine,
        "\tblr\t", ""].get? 6 = some "" ∧
      ["m.rel", "", dividerLine,
        "0x0 -80000000 a:", dividerLine,
        "\tblr\t", "", "", dividerLine,
        "0x4 -7ffffffc b:", dividerLine,
        "\tblr\t", ""].get? 7 = some "" :=
  ⟨rfl, by decide, by decide⟩

set_option maxRecDepth 8192 in
/-- C8 amended: consecutive function blocks are separated by exactly two
blank lines (the header writes two newlines after the previous line's
own terminating newline); the first block follows the module-name line
and its single blank line with no further blank line before the first
divider. -/
theorem function_block_separation_output :
    RelProc.processTextSection 0
        (fun o => if o = 0 then some "a" else if o = 4 then some "b" else none)
        (fun _ => none) "m" [0x4E800020, 0x4E800020] =
      .ok ("m.rel\n\n" ++ dividerLine ++ "\n0x0 -80000000 a:\n" ++ dividerLine ++ "\n\tblr\t\n\n\n" ++ dividerLine ++ "\n0x4 -7ffffffc b:\n" ++ dividerLine ++ "\n\tblr\t\n") :=
  rfl

set_option maxRecDepth 8192 in
/-- C5 counterexample: a function whose first instruction branches to
address 8 (a recorded destination of the active scope, assigned
FINISH_FUNCTION) and whose second instruction is blr at offset 4.  The
next address after the blr, 8, is a recorded destination in the active
scope, so the claim requires a new function header block there; but the
emitter checks branchDestinations for a SCOPE keyed at offset 8 (a
module-map function start), finds none, and writes a blank line
instead: the output holds exactly the two divider lines of the single
header, and an empty line follows the blr line. -/
theorem blr_before_recorded_destination_no_header :
    RelProc.populateBranchDestinations 0 (fun o => if o = 0 then some "f" else none)
        [0x48000008, 0x4E800020, 0] = .ok [(0, [(8, "FINISH_FUNCTION")])] ∧
      (RelProc.processTextSection 0 (fun o => if o = 0 then some "f" else none)
          (fun _ => none) "f" [0x48000008, 0x4E800020, 0]).map linesOf =
        .ok ["f.rel", "", dividerLine,
          "0x0 -80000000 f:", dividerLine,
          "\tb\t->0x00000008 ===> FINISH_FUNCTION_00000008", "", "\tblr\t", "",
          "FINISH_FUNCTION_00000008:", "\t\t---", ""] ∧
      ["f.rel", "", dividerLine,
        "0x0 -80000000 f:", dividerLine,
        "\tb\t->0x00000008 ===> FINISH_FUNCTION_00000008", "", "\tblr\t", "",
        "FINISH_FUNCTION_00000008:", "\t\t---", ""].get? 8 = some "" ∧
      (["f.rel", "", dividerLine,
        "0x0 -80000000 f:", dividerLine,
        "\tb\t->0x00000008 ===> FINISH_FUNCTION_00000008", "", "\tblr\t", "",
        "FINISH_FUNCTION_00000008:", "\t\t---",
        ""].count dividerLine) = 2 :=
  ⟨rfl, rfl, by decide, by decide⟩

namespace SpecAux

/-- Xor with an all-ones mask is subtraction from the mask. -/
theorem xor_two_pow_sub_one (k : Nat) : ∀ m, m < 2 ^ k → m ^^^ (2 ^ k - 1) = 2 ^ k - 1 - m := by
  induction k with
  | zero =>
      intro m hm
      interval_cases m
      decide
  | succ k ih =>
      intro m hm
      have hp : 1 ≤ 2 ^ k := Nat.one_le_two_pow
      have hpow : 2 ^ (k + 1) = 2 * 2 ^ k := by rw [pow_succ]; ring
      have hq : m / 2 < 2 ^ k := by omega
      have hih := ih (m / 2) hq
      rcases Nat.mod_two_eq_zero_or_one m with hb | hb
      · have hm2 : m = 2 * (m / 2) := by omega
        have key := Nat.xor_bit false (m / 2) true (2 ^ k - 1)
        simp [Nat.bit] at key
        have hmask : 2 ^ (k + 1) - 1 = 2 * (2 ^ k - 1) + 1 := by omega
        rw [hmask]
        rw [hm2] at hm ⊢
        rw [key, hih]
        omega
      · have hm2 : m = 2 * (m / 2) + 1 := by omega
        have key := Nat.xor_bit true (m / 2) true (2 ^ k - 1)
        simp [Nat.bit] at key
        have hmask : 2 ^ (k + 1) - 1 = 2 * (2 ^ k - 1) + 1 := by omega
        rw [hmask]
        rw [hm2] at hm ⊢
        rw [key, hih]
        omega

theorem fmtX4_natCast (n : Nat) : JsStr.fmtX4 (n : Int) = JsStr.padZero 4 (JsStr.natHex n) := by
  unfold JsStr.fmtX4 JsStr.hexBody
  rw [if_neg (by omega)]
  norm_num

end SpecAux

namespace SpecAux

theorem toUint32_natCast (m : Nat) (hm : m < 4294967296) : JsNum.toUint32 (m : Int) = m := by
  unfold JsNum.toUint32
  omega

theorem and_32768 (m : Nat) (hm : m < 65536) :
    m &&& 32768 = if 32768 ≤ m then 32768 else 0 := by
  have h1 := Nat.and_two_pow m 15
  have h2 := @Nat.testBit_to_div_mod 15 m
  norm_num at h1 h2
  by_cases hs : 32768 ≤ m
  · have hd : m / 32768 = 1 := by omega
    rw [hd] at h2
    norm_num at h2
    rw [h1, h2]
    simp [hs]
  · have hd : m / 32768 = 0 := by omega
    rw [hd] at h2
    norm_num at h2
    rw [h1, h2]
    simp [hs]

end SpecAux


/-- C10 amended: for every 16-bit displacement value, the rendered
displacement text is hexadecimal, minus-prefixed 0x%04x of the
two's-complement magnitude when the sign bit is set and 0x%04x
otherwise, except that a zero displacement renders as the single
character 0. -/
theorem ldst_displacement_format (m : Nat) (hm : m < 65536) :
    Gekko.ldst_offs (m : Int) = specLdstDisplacementFormat m := by
  unfold Gekko.ldst_offs specLdstDisplacementFormat
  by_cases h0 : m = 0
  · subst h0; norm_num
  · have hne : (m : Int) ≠ 0 := by omega
    rw [if_neg hne, if_neg h0]
    have hu : JsNum.toUint32 (m : Int) = m := SpecAux.toUint32_natCast m (by omega)
    have hand := SpecAux.and_32768 m hm
    have htst : JsNum.tst (m : Int) 0x8000 = decide (32768 ≤ m) := by
      unfold JsNum.tst
      rw [hu, hand]
      by_cases hs : 32768 ≤ m <;> simp [hs]
    rw [htst]
    by_cases hs : 32768 ≤ m
    · rw [if_pos (by simpa using hs), if_pos hs]
      have hx : JsNum.toUint32 (m : Int) ^^^ 4294967295 = 4294967295 - m := by
        rw [hu]
        have := SpecAux.xor_two_pow_sub_one 32 m (by omega)
        norm_num at this
        exact this
      have hnot : JsNum.jsNot (m : Int) = ((4294967295 - m : Nat) : Int) - 4294967296 := by
        unfold JsNum.jsNot
        rw [hx]
        unfold JsNum.toInt32
        rw [SpecAux.toUint32_natCast _ (by omega)]
        rw [if_neg (by omega)]
      have hand2 : JsNum.jsAnd (JsNum.jsNot (m : Int)) 0xffff = ((65535 - m : Nat) : Int) := by
        rw [hnot]
        unfold JsNum.jsAnd
        have hun : JsNum.toUint32 (((4294967295 - m : Nat) : Int) - 4294967296) =
            4294967295 - m := by
          unfold JsNum.toUint32
          omega
        have hum : JsNum.toUint32 (0xffff : Int) = 65535 := by decide
        rw [hun, hum]
        have hmod : (4294967295 - m) &&& 65535 = 65535 - m := by
          have := Nat.and_pow_two_sub_one_eq_mod (4294967295 - m) 16
          norm_num at this
          rw [this]
          omega
        rw [hmod]
        unfold JsNum.toInt32
        rw [SpecAux.toUint32_natCast _ (by omega)]
        rw [if_pos (by omega)]
      rw [hand2]
      have hsum : ((65535 - m : Nat) : Int) + 1 = ((65536 - m : Nat) : Int) := by omega
      rw [hsum, SpecAux.fmtX4_natCast]
    · rw [if_neg (by simpa using hs), if_neg hs, SpecAux.fmtX4_natCast]

/-- C10 witness: the amended format theorem applied at the boundary
value 0x8000, whose magnitude renders as -0x8000. -/
theorem ldst_displacement_format_witness :
    (32768 : Nat) < 65536 ∧
      Gekko.ldst_offs ((32768 : Nat) : Int) = specLdstDisplacementFormat 32768 ∧
      specLdstDisplacementFormat 32768 = "-0x8000" :=
  ⟨by decide, ldst_displacement_format 32768 (by decide), by decide⟩

namespace SpecAux3

theorem sortInsert_perm (k : Int) : ∀ l : List Int, List.Perm (RelProc.sortInsert k l) (k :: l) := by
  intro l
  induction l with
  | nil => simp [RelProc.sortInsert]
  | cons x xs ih =>
      unfold RelProc.sortInsert
      by_cases h : RelProc.keyLt k x
      · rw [if_pos h]
      · rw [if_neg h]
        exact List.Perm.trans (List.Perm.cons x ih) (List.Perm.swap k x xs)

theorem sortKeys_perm : ∀ l : List Int, List.Perm (RelProc.sortKeys l) l := by
  intro l
  induction l with
  | nil => rfl
  | cons x xs ih =>
      have h1 : RelProc.sortKeys (x :: xs) = RelProc.sortInsert x (RelProc.sortKeys xs) := rfl
      rw [h1]
      exact List.Perm.trans (sortInsert_perm x _) (List.Perm.cons x ih)

theorem labelFor_ne (i : Nat) : RelProc.labelFor i ≠ "FINISH_FUNCTION" := by
  unfold RelProc.labelFor
  by_cases h : i < 26
  · rw [if_pos h]
    interval_cases i <;> decide
  · rw [if_neg h]
    intro hc
    have hdata : List.replicate (i / 26) (Char.ofNat (0x61 + i % 26)) =
        "FINISH_FUNCTION".data := congrArg String.data hc
    have hF : 'F' ∈ List.replicate (i / 26) (Char.ofNat (0x61 + i % 26)) := by
      rw [hdata]; decide
    have hI : 'I' ∈ List.replicate (i / 26) (Char.ofNat (0x61 + i % 26)) := by
      rw [hdata]; decide
    have h1 := List.eq_of_mem_replicate hF
    have h2 := List.eq_of_mem_replicate hI
    have hFI : ('F' : Char) = 'I' := h1.trans h2.symm
    exact absurd hFI (by decide)

theorem count_zip_labels (A : Option Int) :
    ∀ (l : List (Int × Bool)) (g : Nat → String),
      (∀ i, g i ≠ "FINISH_FUNCTION") →
      (((List.range l.length).zip l).map
          (fun p => if some p.2.1 = A then "FINISH_FUNCTION" else g p.1)).count
          "FINISH_FUNCTION"
        = (l.map Prod.fst).countP (fun k => decide (some k = A)) := by
  intro l
  induction l with
  | nil => intro g _; rfl
  | cons x xs ih =>
      intro g hg
      rw [List.length_cons, List.range_succ_eq_map]
      rw [List.zip_cons_cons, List.map_cons]
      rw [List.zip_map_left, List.map_map]
      rw [List.count_cons]
      rw [List.map_cons, List.countP_cons]
      have hmapeq :
          ((fun p => if some (p.2.1 : Int) = A then "FINISH_FUNCTION" else g p.1) ∘
              Prod.map Nat.succ id) =
            (fun p : Nat × (Int × Bool) =>
              if some p.2.1 = A then "FINISH_FUNCTION" else (fun i => g (i + 1)) p.1) := by
        funext p
        cases p with
        | mk a b => rfl
      rw [hmapeq, ih (fun i => g (i + 1)) (fun i => hg (i + 1))]
      by_cases hx : some x.1 = A
      · simp [hx]
      · simp [hx, hg 0]

end SpecAux3

namespace SpecAux3

theorem countP_eq_one_of_nodup_mem {l : List Int} {L : Int} (h : l.Nodup) (hm : L ∈ l) :
    l.countP (fun k => decide (some k = some L)) = 1 := by
  induction l with
  | nil => cases hm
  | cons x xs ih =>
      rw [List.countP_cons]
      have hnx : x ∉ xs := (List.nodup_cons.mp h).1
      rcases List.mem_cons.mp hm with hx | hx
      · have h0 : xs.countP (fun k => decide (some k = some L)) = 0 := by
          rw [List.countP_eq_zero]
          intro a ha
          simp only [decide_eq_true_eq, Option.some.injEq]
          intro he
          rw [he, hx] at ha
          exact hnx ha
        rw [h0, hx]
        simp
      · have hne : x ≠ L := fun he => hnx (he ▸ hx)
        rw [ih (List.nodup_cons.mp h).2 hx]
        simp [hne]

theorem countP_none_eq_zero (l : List Int) :
    l.countP (fun k => decide (some k = (none : Option Int))) = 0 := by
  rw [List.countP_eq_zero]
  intro a _
  simp

end SpecAux3

/-- C3 amended: for every function scope holding at least one recorded
destination (with, as the scan guarantees, pairwise distinct
destination addresses), exactly one destination is named
FINISH_FUNCTION if and only if the destination whose decimal address
string sorts last in lexicographic string order has reachedFromBelow
false; otherwise no destination in the scope carries that name.  This
replaces the claim's numerically highest destination: the source sorts
the decimal key strings with the default string comparator. -/
theorem finish_function_iff_lex_last (fnObj : RelProc.FnObj)
    (hnd : (fnObj.map Prod.fst).Nodup) (hne : fnObj ≠ []) :
    ((RelProc.assignScopeLabels fnObj).map Prod.snd).count "FINISH_FUNCTION" =
      if (RelProc.lookupA fnObj
            ((RelProc.sortKeys (fnObj.map Prod.fst)).getLastD 0)).getD false
      then 0 else 1 := by
  have hkeys : fnObj.map Prod.fst ≠ [] := by
    cases fnObj with
    | nil => exact absurd rfl hne
    | cons a l => simp
  have harr : RelProc.sortKeys (fnObj.map Prod.fst) ≠ [] := by
    intro h
    have hp := SpecAux3.sortKeys_perm (fnObj.map Prod.fst)
    rw [h] at hp
    exact hkeys hp.symm.eq_nil
  have hgetlast : (RelProc.sortKeys (fnObj.map Prod.fst)).getLast harr =
      (RelProc.sortKeys (fnObj.map Prod.fst)).getLastD 0 := by
    rw [List.getLastD_eq_getLast?, List.getLast?_eq_getLast _ harr]
    rfl
  set L := (RelProc.sortKeys (fnObj.map Prod.fst)).getLastD 0 with hLdef
  have hmem : L ∈ fnObj.map Prod.fst := by
    rw [← hgetlast]
    exact (SpecAux3.sortKeys_perm _).mem_iff.mp (List.getLast_mem harr)
  have hA : RelProc.assignScopeLabels fnObj =
      ((List.range fnObj.length).zip fnObj).map
        (fun p => (p.2.1,
          if some p.2.1 =
              (if (RelProc.lookupA fnObj L).getD false = false then some L else none)
          then "FINISH_FUNCTION" else RelProc.labelFor p.1)) := by
    have hfun : (fun p : Int × Bool => p.1) = (Prod.fst : Int × Bool → Int) := rfl
    simp only [RelProc.assignScopeLabels, hfun]
    rw [dif_pos harr, hgetlast]
  rw [hA, List.map_map]
  have hcomp :
      (Prod.snd ∘ fun p : Nat × (Int × Bool) => (p.2.1,
          if some p.2.1 =
              (if (RelProc.lookupA fnObj L).getD false = false then some L else none)
          then "FINISH_FUNCTION" else RelProc.labelFor p.1)) =
        (fun p : Nat × (Int × Bool) =>
          if some p.2.1 =
              (if (RelProc.lookupA fnObj L).getD false = false then some L else none)
          then "FINISH_FUNCTION" else RelProc.labelFor p.1) := by
    funext p
    rfl
  rw [hcomp]
  rw [SpecAux3.count_zip_labels _ fnObj RelProc.labelFor SpecAux3.labelFor_ne]
  by_cases hb : (RelProc.lookupA fnObj L).getD false
  · rw [if_pos hb]
    have : (if (RelProc.lookupA fnObj L).getD false = false then some L else none) =
        (none : Option Int) := by
      simp [hb]
    rw [this]
    exact SpecAux3.countP_none_eq_zero _
  · rw [if_neg hb]
    have : (if (RelProc.lookupA fnObj L).getD false = false then some L else none) =
        some L := by
      simp [hb]
    rw [this]
    exact SpecAux3.countP_eq_one_of_nodup_mem hnd hmem

/-- C3 witness: the amended invariant applied to the concrete scope of
the counterexample scenario, destinations 8 (reached from below) and
100 (not): the lexicographically last key is 8, its flag is true, and
no destination is named FINISH_FUNCTION. -/
theorem finish_function_iff_lex_last_witness :
    ([(8, true), (100, false)] : RelProc.FnObj) ≠ [] ∧
      (([(8, true), (100, false)] : RelProc.FnObj).map Prod.fst).Nodup ∧
      ((RelProc.assignScopeLabels [(8, true), (100, false)]).map Prod.snd).count
          "FINISH_FUNCTION" =
        if (RelProc.lookupA [(8, true), (100, false)]
              ((RelProc.sortKeys ([(8, true), (100, false)].map Prod.fst)).getLastD 0)).getD
            false
        then 0 else 1 :=
  ⟨by decide, by decide,
   finish_function_iff_lex_last [(8, true), (100, false)] (by decide) (by decide)⟩

/-- C5 amended: after emitting a register-indirect return (text blr and
a tab), the emitter starts a new function header block if and only if
branchDestinations holds a scope KEYED AT THE NEXT OFFSET, i.e. the
module map opened a function scope there during the analyzer pass;
otherwise it schedules a single blank separator line.  The recorded
destinations of the active scope play no role in this decision. -/
theorem blr_step_new_fn_iff_scope_key (relMap frameworkMap : Int → Option String)
    (sectionAddr : Int) (bd : RelProc.Scopes) (st : RelProc.EmitSt) (o : Int)
    (hcurr : (RelProc.lookupA bd
        (if RelProc.truthy (relMap o) then o else st.curr)).isSome = true)
    (hlb : st.leaveBlankLine = false) :
    ∃ st', RelProc.emitStep relMap frameworkMap sectionAddr bd st o "blr\t" = .ok st' ∧
      st'.startingNewFn = (RelProc.lookupA bd (o + 4)).isSome ∧
      st'.leaveBlankLine = !(RelProc.lookupA bd (o + 4)).isSome := by
  have hbm : RelProc.branchMatch "blr\t" = none := rfl
  have hbl : RelProc.isBlrLine "blr\t" = true := rfl
  obtain ⟨out, sn, lb, curr⟩ := st
  simp only [RelProc.EmitSt.leaveBlankLine] at hlb
  subst hlb
  unfold RelProc.emitStep RelProc.blankOrHeader
  have hann : ∀ c, RelProc.annotateInstr frameworkMap relMap sectionAddr bd c "blr\t" =
      .ok "blr\t" := by
    intro c
    unfold RelProc.annotateInstr
    rw [hbm]
  by_cases hr : RelProc.truthy (relMap o) = true
  · simp only [if_pos hr] at hcurr ⊢
    obtain ⟨sc, hsc⟩ := Option.isSome_iff_exists.mp hcurr
    rw [hann]
    simp only [hsc, hbm, hbl]
    by_cases hsn : sn = true
    all_goals by_cases ho : o > 0
    all_goals by_cases hlab : RelProc.truthy (RelProc.lookupA sc (sectionAddr + o)) = true
    all_goals cases h4 : (RelProc.lookupA bd (o + 4)).isSome
    all_goals simp [hsn, ho, hlab, h4, hsc]
  · simp only [if_neg hr] at hcurr ⊢
    obtain ⟨sc, hsc⟩ := Option.isSome_iff_exists.mp hcurr
    rw [hann]
    simp only [hsc, hbm, hbl]
    by_cases hsn : sn = true
    all_goals by_cases ho : o > 0
    all_goals by_cases hlab : RelProc.truthy (RelProc.lookupA sc (sectionAddr + o)) = true
    all_goals cases h4 : (RelProc.lookupA bd (o + 4)).isSome
    all_goals simp [hsn, ho, hlab, h4, hsc]

/-- C5 witness: the step theorem applied concretely: the scope table
has one scope, at offset 0, holding destination address 8; the blr sits
at offset 4; no scope is keyed at offset 8, so although address 8 is a
recorded destination of the active scope, no header block starts and a
blank line is scheduled. -/
theorem blr_step_new_fn_iff_scope_key_witness :
    (RelProc.lookupA ([(0, [(8, "FINISH_FUNCTION")])] : RelProc.Scopes)
        (if RelProc.truthy ((fun _ => (none : Option String)) (4 : Int)) then 4
         else (⟨"", false, false, 0⟩ : RelProc.EmitSt).curr)).isSome = true ∧
      (⟨"", false, false, 0⟩ : RelProc.EmitSt).leaveBlankLine = false ∧
      (∃ st', RelProc.emitStep (fun _ => none) (fun _ => none) 0
            [(0, [(8, "FINISH_FUNCTION")])] ⟨"", false, false, 0⟩ 4 "blr\t" = .ok st' ∧
          st'.startingNewFn =
            (RelProc.lookupA ([(0, [(8, "FINISH_FUNCTION")])] : RelProc.Scopes)
              (4 + 4)).isSome ∧
          st'.leaveBlankLine =
            !(RelProc.lookupA ([(0, [(8, "FINISH_FUNCTION")])] : RelProc.Scopes)
              (4 + 4)).isSome) :=
  ⟨by decide, rfl,
   blr_step_new_fn_iff_scope_key (fun _ => none) (fun _ => none) 0
     [(0, [(8, "FINISH_FUNCTION")])] ⟨"", false, false, 0⟩ 4 (by decide) rfl⟩

namespace SpecAux7

theorem tryTail_sound (rest : List Char) (h : String)
    (ht : RelProc.tryTail rest = some h) :
    ∃ t, rest.dropWhile RelProc.isJsSpace = '-' :: '>' :: '0' :: 'x' :: t := by
  unfold RelProc.tryTail at ht
  split at ht
  · next t heq =>
      exact ⟨t, heq⟩
  · cases ht

theorem greedyScan_sound : ∀ (run acc rest : List Char) (g h : String),
    RelProc.greedyScan acc run rest = some (g, h) →
    ∃ pre suf, run = pre ++ suf ∧ RelProc.tryTail (suf ++ rest) = some h := by
  intro run
  induction run with
  | nil =>
      intro acc rest g h hg
      unfold RelProc.greedyScan at hg
      cases ht : RelProc.tryTail rest with
      | none => rw [ht] at hg; simp at hg
      | some hh =>
          rw [ht] at hg
          have hg' : (String.mk acc.reverse, hh) = (g, h) := Option.some.inj hg
          injection hg' with h1 h2
          exact ⟨[], [], rfl, by rw [List.nil_append, ht, h2]⟩
  | cons c t ih =>
      intro acc rest g h hg
      unfold RelProc.greedyScan at hg
      cases hrec : RelProc.greedyScan (c :: acc) t rest with
      | some r =>
          rw [hrec] at hg
          have hg' : some r = some (g, h) := hg
          obtain ⟨pre, suf, he, htt⟩ := ih (c :: acc) rest g h (by rw [hrec]; exact hg')
          exact ⟨c :: pre, suf, by rw [List.cons_append, he], htt⟩
      | none =>
          rw [hrec] at hg
          have hg2 : Option.map (fun hx => (String.mk acc.reverse, hx))
              (RelProc.tryTail (c :: t ++ rest)) = some (g, h) := hg
          cases ht : RelProc.tryTail (c :: t ++ rest) with
          | none => rw [ht] at hg2; simp at hg2
          | some hh =>
              rw [ht] at hg2
              have hg' : (String.mk acc.reverse, hh) = (g, h) := Option.some.inj hg2
              injection hg' with h1 h2
              exact ⟨[], c :: t, rfl, by rw [ht, h2]⟩

theorem takeDropWhile_append_not (p : Char → Bool) :
    ∀ (xs : List Char) (y : Char) (ys : List Char),
      (∀ x ∈ xs, p x = true) → p y = false →
      (xs ++ y :: ys).takeWhile p = xs ∧ (xs ++ y :: ys).dropWhile p = y :: ys := by
  intro xs
  induction xs with
  | nil =>
      intro y ys _ hy
      constructor
      · simp [List.takeWhile_cons, hy]
      · simp [List.dropWhile_cons, hy]
  | cons a l ih =>
      intro y ys hall hy
      have ha : p a = true := hall a (by simp)
      have hr := ih y ys (fun x hx => hall x (by simp [hx])) hy
      constructor
      · simp [List.takeWhile_cons, ha, hr.1]
      · simp [List.dropWhile_cons, ha, hr.2]

end SpecAux7

/-- C7: both passes recognize a direct-address branch solely through the
anchored pattern: a b followed by a greedy nonspace run, optional
whitespace, the literal arrow and 0x, and eight hex digits.
Consequently an instruction whose rendered text places a nonspace
operand (such as a condition-register field crN, or a decrement-counter
operand) between the mnemonic's tab and the arrow never matches: the
analyzer records no destination for it and the emitter leaves its line
unannotated.  Here op is the mnemonic (starting with b, containing no
whitespace and no greater-than character) and pre is the operand text,
whose first character is neither whitespace nor a minus sign. -/
theorem cr_operand_branch_never_recorded (op pre : String) (opTail : List Char)
    (c0 : Char) (hop : op.data = 'b' :: opTail)
    (hns : ∀ c ∈ op.data, RelProc.isJsSpace c = false)
    (hgt : '>' ∉ op.data)
    (hpre : pre.data.head? = some c0)
    (hc0s : RelProc.isJsSpace c0 = false)
    (hc0d : c0 ≠ '-') :
    RelProc.branchMatch (op ++ "\t" ++ pre) = none ∧
      (∀ (relMap : Int → Option String) (sectionAddr : Int) (st : RelProc.ScanSt)
          (o : Int),
        RelProc.scanStep relMap sectionAddr st o (op ++ "\t" ++ pre) =
          .ok (if RelProc.truthy (relMap o) then ⟨o, RelProc.setScope st.obj o⟩
               else st)) ∧
      (∀ (frameworkMap relMap : Int → Option String) (sectionAddr : Int)
          (bd : RelProc.Scopes) (curr : Int),
        RelProc.annotateInstr frameworkMap relMap sectionAddr bd curr
            (op ++ "\t" ++ pre) = .ok (op ++ "\t" ++ pre)) := by
  have htab : ("\t" : String).data = ['\t'] := rfl
  have hsdata : (op ++ "\t" ++ pre).data = 'b' :: (opTail ++ '\t' :: pre.data) := by
    rw [String.data_append, String.data_append, hop, htab]
    simp
  have hmemop : ∀ c ∈ opTail, c ∈ op.data := by
    intro c hc
    rw [hop]
    exact List.mem_cons_of_mem _ hc
  obtain ⟨htake, hdrop⟩ :=
    SpecAux7.takeDropWhile_append_not (fun c => !(RelProc.isJsSpace c)) opTail '\t'
      pre.data
      (fun x hx => by simp [hns x (hmemop x hx)])
      (by decide)
  have hred : RelProc.branchMatch (op ++ "\t" ++ pre) =
      RelProc.greedyScan ['b'] opTail ('\t' :: pre.data) := by
    unfold RelProc.branchMatch
    rw [hsdata]
    show RelProc.greedyScan ['b']
        ((opTail ++ '\t' :: pre.data).takeWhile (fun c => !(RelProc.isJsSpace c)))
        ((opTail ++ '\t' :: pre.data).dropWhile (fun c => !(RelProc.isJsSpace c))) = _
    rw [htake, hdrop]
  have hbm : RelProc.branchMatch (op ++ "\t" ++ pre) = none := by
    rw [hred]
    cases hm : RelProc.greedyScan ['b'] opTail ('\t' :: pre.data) with
    | none => rfl
    | some gh =>
        exfalso
        obtain ⟨g, h⟩ := gh
        obtain ⟨preR, suf, hsplit, htt⟩ :=
          SpecAux7.greedyScan_sound opTail ['b'] ('\t' :: pre.data) g h hm
        obtain ⟨t2, hdw⟩ := SpecAux7.tryTail_sound _ h htt
        cases suf with
        | nil =>
            rw [List.nil_append, List.dropWhile_cons,
              if_pos (show RelProc.isJsSpace '\t' = true from by decide)] at hdw
            cases hp : pre.data with
            | nil => rw [hp] at hpre; cases hpre
            | cons c0x prest =>
                rw [hp] at hpre
                have hc0x : c0x = c0 := by
                  simpa using hpre
                rw [hp, List.dropWhile_cons,
                  if_neg (show ¬(RelProc.isJsSpace c0x = true) from by
                    rw [hc0x, hc0s]; simp)] at hdw
                injection hdw with hh1 _
                exact hc0d (hc0x ▸ hh1)
        | cons c suf2 =>
            have hcmem : c ∈ op.data := hmemop c (by rw [hsplit]; simp)
            have hcs : RelProc.isJsSpace c = false := hns c hcmem
            rw [List.cons_append, List.dropWhile_cons,
              if_neg (show ¬(RelProc.isJsSpace c = true) from by rw [hcs]; simp)] at hdw
            injection hdw with hh1 hh2
            cases suf2 with
            | nil =>
                rw [List.nil_append] at hh2
                injection hh2 with hh3 _
                exact absurd hh3 (by decide)
            | cons c2 suf3 =>
                have hc2mem : c2 ∈ op.data := hmemop c2 (by rw [hsplit]; simp)
                rw [List.cons_append] at hh2
                injection hh2 with hh3 _
                exact hgt (hh3 ▸ hc2mem)
  refine ⟨hbm, ?_, ?_⟩
  · intro relMap sectionAddr st o
    unfold RelProc.scanStep
    rw [hbm]
  · intro frameworkMap relMap sectionAddr bd curr
    unfold RelProc.annotateInstr
    rw [hbm]

/-- C7 witness: the theorem applied to the rendered text of a real
conditional branch, bge- with operand text cr1 ->0x00000008 (the decode
of word 0x40840008 at address 0): the text fails the pattern, the
analyzer step leaves the destination records untouched, and the emitter
returns the line unannotated. -/
theorem cr_operand_branch_never_recorded_witness :
    Gekko.disassemble 0x40840008 0 = .ok "bge-\tcr1 ->0x00000008" ∧
      RelProc.branchMatch ("bge-" ++ "\t" ++ "cr1 ->0x00000008") = none ∧
      RelProc.scanStep (fun _ => none) 0 ⟨0, [(0, [])]⟩ 0
          ("bge-" ++ "\t" ++ "cr1 ->0x00000008") = .ok ⟨0, [(0, [])]⟩ ∧
      RelProc.annotateInstr (fun _ => none) (fun _ => none) 0 [(0, [])] 0
          ("bge-" ++ "\t" ++ "cr1 ->0x00000008") =
        .ok ("bge-" ++ "\t" ++ "cr1 ->0x00000008") := by
  have main := cr_operand_branch_never_recorded "bge-" "cr1 ->0x00000008"
    ['g', 'e', '-'] 'c' (by decide) (by decide) (by decide) (by decide) (by decide)
    (by decide)
  refine ⟨rfl, main.1, ?_, main.2.2 (fun _ => none) (fun _ => none) 0 [(0, [])] 0⟩
  have h := main.2.1 (fun _ => none) 0 ⟨0, [(0, [])]⟩ 0
  simpa using h
namespace SpecAux2

theorem lookupA_setScope_self : ∀ (l : RelProc.ScopesRaw) (k : Int),
    RelProc.lookupA (RelProc.setScope l k) k = some [] := by
  intro l k
  induction l with
  | nil => simp [RelProc.setScope, RelProc.lookupA]
  | cons p t ih =>
      obtain ⟨k0, v⟩ := p
      by_cases h : k0 = k
      · simp [RelProc.setScope, RelProc.lookupA, h]
      · simp [RelProc.setScope, RelProc.lookupA, h, ih]

theorem lookupA_setScope_mono (l : RelProc.ScopesRaw) (k k' : Int)
    (h : (RelProc.lookupA l k').isSome = true) :
    (RelProc.lookupA (RelProc.setScope l k) k').isSome = true := by
  induction l with
  | nil => simp [RelProc.lookupA] at h
  | cons p t ih =>
      obtain ⟨k0, v⟩ := p
      by_cases hk : k0 = k
      · subst hk
        by_cases hk' : k0 = k'
        · subst hk'
          simp [RelProc.setScope, RelProc.lookupA]
        · simp [RelProc.setScope, RelProc.lookupA, hk'] at h ⊢
          exact h
      · by_cases hk' : k0 = k'
        · subst hk'
          simp [RelProc.setScope, RelProc.lookupA, hk]
        · simp [RelProc.setScope, RelProc.lookupA, hk, hk'] at h ⊢
          exact ih h

theorem lookupA_setScopeVal (l : RelProc.ScopesRaw) (k : Int) (v : RelProc.FnObj)
    (k' : Int) :
    (RelProc.lookupA (RelProc.setScopeVal l k v) k').isSome =
      (RelProc.lookupA l k').isSome := by
  induction l with
  | nil => rfl
  | cons p t ih =>
      obtain ⟨k0, v0⟩ := p
      simp only [RelProc.setScopeVal, List.map_cons] at ih ⊢
      by_cases hk : k0 = k
      · rw [if_pos hk]
        by_cases hk' : k0 = k'
        · simp only [RelProc.lookupA, if_pos hk']
          rfl
        · simp only [RelProc.lookupA, if_neg hk']
          exact ih
      · rw [if_neg hk]
        by_cases hk' : k0 = k'
        · simp only [RelProc.lookupA, if_pos hk']
        · simp only [RelProc.lookupA, if_neg hk']
          exact ih

theorem lookupA_map_assign (l : RelProc.ScopesRaw) (k : Int) :
    RelProc.lookupA (l.map (fun p => (p.1, RelProc.assignScopeLabels p.2))) k =
      (RelProc.lookupA l k).map RelProc.assignScopeLabels := by
  induction l with
  | nil => rfl
  | cons p t ih =>
      obtain ⟨k0, v0⟩ := p
      by_cases hk : k0 = k <;> simp [RelProc.lookupA, hk, ih]

/-- The destination-record update performed by the analyzer callback on
a recordable branch: insert a fresh record when absent, then set
reachedFromBelow when the branch source lies above the target. -/
def destUpdate (fnObj : RelProc.FnObj) (src b : Int) : RelProc.FnObj :=
  let fnObj :=
    if (RelProc.lookupA fnObj b).isSome then fnObj else RelProc.insertDest fnObj b
  if (RelProc.lookupA fnObj b).getD false = false then
    if src > b then RelProc.setRfb fnObj b else fnObj
  else fnObj

theorem scanStep_ok (relMap : Int → Option String) (sectionAddr : Int)
    (st : RelProc.ScanSt) (o : Int) (t : String)
    (hpre : RelProc.truthy (relMap o) = true ∨
      (RelProc.lookupA st.obj st.curr).isSome = true) :
    ∃ st', RelProc.scanStep relMap sectionAddr st o t = .ok st' ∧
      (RelProc.lookupA st'.obj st'.curr).isSome = true ∧
      (∀ k, (RelProc.lookupA st.obj k).isSome = true →
        (RelProc.lookupA st'.obj k).isSome = true) ∧
      (RelProc.truthy (relMap o) = true →
        (RelProc.lookupA st'.obj o).isSome = true) := by
  by_cases htr : RelProc.truthy (relMap o) = true
  · cases hm : RelProc.branchMatch t with
    | none =>
        refine ⟨⟨o, RelProc.setScope st.obj o⟩, ?_, ?_, ?_, ?_⟩
        · simp [RelProc.scanStep, htr, hm]
        · simp [lookupA_setScope_self]
        · intro k hk; exact lookupA_setScope_mono _ _ _ hk
        · intro _; simp [lookupA_setScope_self]
    | some gh =>
        obtain ⟨g, hx⟩ := gh
        by_cases hg : g = "bl"
        · refine ⟨⟨o, RelProc.setScope st.obj o⟩, ?_, ?_, ?_, ?_⟩
          · simp [RelProc.scanStep, htr, hm, hg]
          · simp [lookupA_setScope_self]
          · intro k hk; exact lookupA_setScope_mono _ _ _ hk
          · intro _; simp [lookupA_setScope_self]
        · refine ⟨⟨o, RelProc.setScopeVal (RelProc.setScope st.obj o) o
              (destUpdate [] (sectionAddr + o) ((RelProc.hexValNat hx : Nat) : Int))⟩,
            ?_, ?_, ?_, ?_⟩
          · simp [RelProc.scanStep, destUpdate, htr, hm, hg, lookupA_setScope_self]
          · simp [lookupA_setScopeVal, lookupA_setScope_self]
          · intro k hk
            rw [lookupA_setScopeVal]
            exact lookupA_setScope_mono _ _ _ hk
          · intro _
            rw [lookupA_setScopeVal]
            simp [lookupA_setScope_self]
  · have hcur : (RelProc.lookupA st.obj st.curr).isSome = true :=
      hpre.resolve_left htr
    obtain ⟨fnObj, hfn⟩ := Option.isSome_iff_exists.mp hcur
    cases hm : RelProc.branchMatch t with
    | none =>
        exact ⟨st, by simp [RelProc.scanStep, htr, hm], hcur,
          fun _ hk => hk, fun h => absurd h htr⟩
    | some gh =>
        obtain ⟨g, hx⟩ := gh
        by_cases hg : g = "bl"
        · exact ⟨st, by simp [RelProc.scanStep, htr, hm, hg], hcur,
            fun _ hk => hk, fun h => absurd h htr⟩
        · refine ⟨⟨st.curr, RelProc.setScopeVal st.obj st.curr
              (destUpdate fnObj (sectionAddr + o) ((RelProc.hexValNat hx : Nat) : Int))⟩,
            ?_, ?_, ?_, ?_⟩
          · simp [RelProc.scanStep, destUpdate, htr, hm, hg, hfn]
          · rw [lookupA_setScopeVal]; exact hcur
          · intro k hk
            rw [lookupA_setScopeVal]
            exact hk
          · intro h; exact absurd h htr

theorem scanList_ok (relMap : Int → Option String) (sectionAddr : Int) :
    ∀ (ts : List (Int × String)) (st : RelProc.ScanSt),
      (RelProc.lookupA st.obj st.curr).isSome = true →
      ∃ st', RelProc.scanList relMap sectionAddr st ts = .ok st' ∧
        (RelProc.lookupA st'.obj st'.curr).isSome = true ∧
        (∀ k, (RelProc.lookupA st.obj k).isSome = true →
          (RelProc.lookupA st'.obj k).isSome = true) ∧
        (∀ p ∈ ts, RelProc.truthy (relMap p.1) = true →
          (RelProc.lookupA st'.obj p.1).isSome = true)
  | [], st, hinv => ⟨st, rfl, hinv, fun _ hk => hk, by simp⟩
  | (o, t) :: rest, st, hinv => by
      obtain ⟨st1, h1eq, h1inv, h1mono, h1off⟩ :=
        scanStep_ok relMap sectionAddr st o t (Or.inr hinv)
      obtain ⟨st2, h2eq, h2inv, h2mono, h2off⟩ :=
        scanList_ok relMap sectionAddr rest st1 h1inv
      refine ⟨st2, ?_, h2inv, fun k hk => h2mono k (h1mono k hk), ?_⟩
      · simp [RelProc.scanList, h1eq, h2eq]
      · intro p hp htp
        rcases List.mem_cons.mp hp with hp0 | hpr
        · subst hp0
          exact h2mono _ (h1off htp)
        · exact h2off p hpr htp

theorem annotateInstr_ok (frameworkMap relMap : Int → Option String)
    (sectionAddr : Int) (bd : RelProc.Scopes) (curr : Int) (t : String)
    (h : (RelProc.lookupA bd curr).isSome = true) :
    ∃ r, RelProc.annotateInstr frameworkMap relMap sectionAddr bd curr t = .ok r := by
  obtain ⟨sc, hsc⟩ := Option.isSome_iff_exists.mp h
  cases hm : RelProc.branchMatch t with
  | none => exact ⟨t, by simp [RelProc.annotateInstr, hm]⟩
  | some gh =>
      obtain ⟨g, hx⟩ := gh
      by_cases hg : g = "bl"
      · by_cases hb1 : RelProc.truthy
            (frameworkMap ((RelProc.hexValNat hx : Nat) : Int)) = true
        · simp only [RelProc.annotateInstr, hm, hg, hb1]
          exact ⟨_, rfl⟩
        · by_cases hb2 : RelProc.truthy (relMap (JsNum.jsAnd
              (((RelProc.hexValNat hx : Nat) : Int) - sectionAddr)
              RelProc.clearMsb)) = true
          · simp only [RelProc.annotateInstr, hm, hg, hb1, hb2]
            exact ⟨_, rfl⟩
          · simp only [RelProc.annotateInstr, hm, hg, hb1, hb2]
            exact ⟨_, rfl⟩
      · by_cases hgr : g = "blr"
        · simp [RelProc.annotateInstr, hm, hg, hgr]
        · by_cases hb3 : RelProc.truthy
              (RelProc.lookupA sc ((RelProc.hexValNat hx : Nat) : Int)) = true
          · simp [RelProc.annotateInstr, hm, hg, hgr, hsc, hb3]
          · simp [RelProc.annotateInstr, hm, hg, hgr, hsc, hb3]

theorem blankOrHeader_curr (relMap : Int → Option String) (sectionAddr : Int)
    (st : RelProc.EmitSt) (o : Int) :
    (RelProc.blankOrHeader relMap sectionAddr st o).curr = st.curr := by
  unfold RelProc.blankOrHeader
  by_cases h1 : st.leaveBlankLine = true
  · simp [h1]
  · by_cases h2 : st.startingNewFn = true
    · by_cases h3 : o > 0 <;> simp [h1, h2, h3]
    · simp [h1, h2]

theorem emitStep_ok (relMap frameworkMap : Int → Option String) (sectionAddr : Int)
    (bd : RelProc.Scopes) (st : RelProc.EmitSt) (o : Int) (instr0 : String)
    (hoff : RelProc.truthy (relMap o) = true → (RelProc.lookupA bd o).isSome = true)
    (hinv : (RelProc.lookupA bd st.curr).isSome = true) :
    ∃ st', RelProc.emitStep relMap frameworkMap sectionAddr bd st o instr0 = .ok st' ∧
      (RelProc.lookupA bd st'.curr).isSome = true := by
  obtain ⟨out, sn, lb, curr⟩ := st
  by_cases htr : RelProc.truthy (relMap o) = true
  · have hc1 : (RelProc.lookupA bd o).isSome = true := hoff htr
    obtain ⟨r, hann⟩ := annotateInstr_ok frameworkMap relMap sectionAddr bd o instr0 hc1
    obtain ⟨sc, hsc⟩ := Option.isSome_iff_exists.mp hc1
    unfold RelProc.emitStep
    simp only [if_pos htr]
    rw [hann]
    simp [blankOrHeader_curr, hsc, apply_ite RelProc.EmitSt.curr, ite_self]
  · simp only [RelProc.EmitSt.curr] at hinv
    obtain ⟨r, hann⟩ :=
      annotateInstr_ok frameworkMap relMap sectionAddr bd curr instr0 hinv
    obtain ⟨sc, hsc⟩ := Option.isSome_iff_exists.mp hinv
    unfold RelProc.emitStep
    simp only [if_neg htr]
    rw [hann]
    simp [blankOrHeader_curr, hsc, apply_ite RelProc.EmitSt.curr, ite_self]

theorem emitList_ok (relMap frameworkMap : Int → Option String) (sectionAddr : Int)
    (bd : RelProc.Scopes) :
    ∀ (ts : List (Int × String)) (st : RelProc.EmitSt),
      (∀ p ∈ ts, RelProc.truthy (relMap p.1) = true →
        (RelProc.lookupA bd p.1).isSome = true) →
      (RelProc.lookupA bd st.curr).isSome = true →
      ∃ st', RelProc.emitList relMap frameworkMap sectionAddr bd st ts = .ok st'
  | [], st, _, _ => ⟨st, rfl⟩
  | (o, t) :: rest, st, hts, hinv => by
      obtain ⟨st1, h1eq, h1inv⟩ := emitStep_ok relMap frameworkMap sectionAddr bd st o t
        (fun htr => hts (o, t) (List.mem_cons_self _ _) htr) hinv
      obtain ⟨st2, h2eq⟩ := emitList_ok relMap frameworkMap sectionAddr bd rest st1
        (fun p hp => hts p (List.mem_cons_of_mem _ hp)) h1inv
      exact ⟨st2, by simp [RelProc.emitList, h1eq, h2eq]⟩

end SpecAux2

/-- C2 amended: provided every word of the section decodes and the
module-local map has a truthy entry at section offset 0 (so that the
analyzer opens a function scope before any recordable branch and the
emitter always has an active scope), no exception escapes either the
analyzer pass or the emission pass, for every section buffer and every
pair of symbol maps.  Without the offset-0 entry both passes can throw
a TypeError on the first recordable branch. -/
theorem no_exception_with_scope_at_zero (sectionAddr : Int)
    (relMap frameworkMap : Int → Option String) (relName : String)
    (words : List Int) (ts : List (Int × String))
    (hdec : RelProc.disassembleSection sectionAddr 0 words = .ok ts)
    (h0 : words = [] ∨ RelProc.truthy (relMap 0) = true) :
    (RelProc.populateBranchDestinations sectionAddr relMap words).isOk = true ∧
    (RelProc.processTextSection sectionAddr relMap frameworkMap relName
        words).isOk = true := by
  cases words with
  | nil => exact ⟨rfl, rfl⟩
  | cons w ws =>
      have h0' : RelProc.truthy (relMap 0) = true := by
        rcases h0 with h | h
        · exact absurd h (by simp)
        · exact h
      cases hd : Gekko.disassemble w (sectionAddr + 0) with
      | error e =>
          unfold RelProc.disassembleSection at hdec
          rw [hd] at hdec
          exact absurd hdec (by simp)
      | ok t0 =>
          cases hrest : RelProc.disassembleSection sectionAddr (0 + 4) ws with
          | error e =>
              unfold RelProc.disassembleSection at hdec
              rw [hd, hrest] at hdec
              exact absurd hdec (by simp)
          | ok rest =>
              unfold RelProc.disassembleSection at hdec
              rw [hd, hrest] at hdec
              simp only at hdec
              injection hdec with hts
              subst hts
              obtain ⟨st1, h1eq, h1inv, h1mono, h1off⟩ :=
                SpecAux2.scanStep_ok relMap sectionAddr ⟨0, []⟩ 0 t0 (Or.inl h0')
              obtain ⟨stF, hFeq, hFinv, hFmono, hFoff⟩ :=
                SpecAux2.scanList_ok relMap sectionAddr rest st1 h1inv
              have hscan : RelProc.scanList relMap sectionAddr ⟨0, []⟩
                  ((0, t0) :: rest) = .ok stF := by
                simp [RelProc.scanList, h1eq, hFeq]
              have hdec' : RelProc.disassembleSection sectionAddr 0 (w :: ws)
                  = .ok ((0, t0) :: rest) := by
                unfold RelProc.disassembleSection
                rw [hd, hrest]
              have hpop : RelProc.populateBranchDestinations sectionAddr relMap
                  (w :: ws) = .ok (stF.obj.map
                    (fun p => (p.1, RelProc.assignScopeLabels p.2))) := by
                unfold RelProc.populateBranchDestinations
                rw [hdec']
                simp only
                rw [hscan]
              have hbd : ∀ k, (RelProc.lookupA (stF.obj.map
                  (fun p => (p.1, RelProc.assignScopeLabels p.2))) k).isSome
                  = (RelProc.lookupA stF.obj k).isSome := by
                intro k
                rw [SpecAux2.lookupA_map_assign]
                cases RelProc.lookupA stF.obj k <;> rfl
              have hts : ∀ p ∈ (0, t0) :: rest,
                  RelProc.truthy (relMap p.1) = true →
                  (RelProc.lookupA (stF.obj.map
                    (fun p => (p.1, RelProc.assignScopeLabels p.2))) p.1).isSome
                    = true := by
                intro p hp htp
                rw [hbd]
                rcases List.mem_cons.mp hp with hp0 | hpr
                · subst hp0
                  exact hFmono _ (h1off htp)
                · exact hFoff p hpr htp
              have hinit : (RelProc.lookupA (stF.obj.map
                  (fun p => (p.1, RelProc.assignScopeLabels p.2))) (0 : Int)).isSome
                  = true := by
                rw [hbd]
                exact hFmono _ (h1off h0')
              obtain ⟨stE, hEeq⟩ := SpecAux2.emitList_ok relMap frameworkMap
                sectionAddr _ ((0, t0) :: rest)
                ⟨relName ++ ".rel\n\n", true, false, 0⟩ hts hinit
              have hproc : RelProc.processTextSection sectionAddr relMap
                  frameworkMap relName (w :: ws) = .ok stE.out := by
                unfold RelProc.processTextSection
                rw [hpop]
                simp only
                rw [hdec']
                simp only
                rw [hEeq]
              exact ⟨by rw [hpop]; rfl, by rw [hproc]; rfl⟩

set_option maxRecDepth 8192 in
/-- C2 witness: a two-word section (a forward b and a blr) with a
module-map entry at offset 0: both passes run to completion. -/
theorem no_exception_with_scope_at_zero_witness :
    RelProc.disassembleSection 0 0 [0x48000008, 0x4E800020]
      = .ok [(0, "b\t->0x00000008"), (4, "blr\t")] ∧
    (([0x48000008, 0x4E800020] : List Int) = [] ∨
      RelProc.truthy ((fun o => if o = 0 then some "fn" else none) (0 : Int))
        = true) ∧
    ((RelProc.populateBranchDestinations 0
        (fun o => if o = 0 then some "fn" else none)
        [0x48000008, 0x4E800020]).isOk = true ∧
     (RelProc.processTextSection 0 (fun o => if o = 0 then some "fn" else none)
        (fun _ => none) "m" [0x48000008, 0x4E800020]).isOk = true) :=
  ⟨rfl, Or.inr rfl,
   no_exception_with_scope_at_zero 0 (fun o => if o = 0 then some "fn" else none)
     (fun _ => none) "m" [0x48000008, 0x4E800020]
     [(0, "b\t->0x00000008"), (4, "blr\t")] rfl (Or.inr rfl)⟩
